import Mathlib

/-!
Verification development for the SmallWM window-manager core.

The development shallowly embeds the auxiliary X-side model
(`src/model/x-model.cpp`), the change dispatcher
(`src/clientmodel-events.cpp`) and — since the client-model translation
unit itself is not part of the sources, only its declarations, tests and
callers — a client model written from the specification, and proves the
behavioural claims about them.

Conventions: X11 `Window` handles are natural numbers with `0` playing the
role of the `None` sentinel; machine integers that can go negative
(`Dimension`, coordinates) are `Int`; finite maps are association lists.
-/

namespace SmallWM

/-- An X11 window handle. -/
abbrev Window := Nat

/-- The X11 `None` sentinel for windows. -/
def NoWindow : Window := 0

/-- The desktop variants used by the client model (user desktops,
the sticky all-desktop, and the special icon/moving/resizing desktops). -/
inductive Desktop where
  | user (index : Nat)
  | all
  | icon
  | moving
  | resizing
deriving DecidableEq

/-- Predicate mirroring `Desktop::is_user_desktop`. -/
def Desktop.is_user_desktop : Desktop → Bool
  | .user _ => true
  | _ => false

/-- Predicate mirroring `Desktop::is_all_desktop`. -/
def Desktop.is_all_desktop : Desktop → Bool
  | .all => true
  | _ => false

/-- Predicate mirroring `Desktop::is_icon_desktop`. -/
def Desktop.is_icon_desktop : Desktop → Bool
  | .icon => true
  | _ => false

/-- Predicate mirroring `Desktop::is_moving_desktop`. -/
def Desktop.is_moving_desktop : Desktop → Bool
  | .moving => true
  | _ => false

/-- Predicate mirroring `Desktop::is_resizing_desktop`. -/
def Desktop.is_resizing_desktop : Desktop → Bool
  | .resizing => true
  | _ => false

/-- A desktop is a move-or-resize desktop. -/
def Desktop.isMR (d : Desktop) : Bool :=
  d.is_moving_desktop || d.is_resizing_desktop

/-- The `EXPECT_MAP` client-effect bit (`1 << 0`). -/
def EXPECT_MAP : Nat := 1

/-- The `EXPECT_UNMAP` client-effect bit (`1 << 1`). -/
def EXPECT_UNMAP : Nat := 2

/-- The `MoveResizeState` enumeration from `x-model.hpp`. -/
inductive MoveResizeState where
  | MR_INVALID
  | MR_MOVE
  | MR_RESIZE
deriving DecidableEq

/-- The `MoveResize` record from `x-model.hpp`: the single in-progress
move or resize. -/
structure MoveResize where
  state : MoveResizeState
  placeholder : Window
  client : Window
deriving DecidableEq

/-- The `XModel` state from `x-model.hpp`: the per-window effect bits, the
at-most-one move/resize record and the recorded pointer position.  (The
icon registry fields are carried by the dispatcher environment instead;
none of the claims depend on them being part of this record.) -/
structure XModel where
  m_effects : List (Window × Nat) := []
  m_moveresize : Option MoveResize := none
  m_pointer : Int × Int := (0, 0)
deriving DecidableEq

/-- Lookup of `m_effects[client]` without insertion. -/
def XModel.effectsEntry (s : XModel) (client : Window) : Option Nat :=
  (s.m_effects.find? (fun p => p.1 == client)).map (fun p => p.2)

/-- Store `m_effects[client] = v`, inserting a fresh entry when absent
(the behaviour of `std::map::operator[]` followed by assignment). -/
def storeEffect (l : List (Window × Nat)) (client : Window) (v : Nat) :
    List (Window × Nat) :=
  if l.any (fun p => p.1 == client) then
    l.map (fun p => if p.1 == client then (p.1, v) else p)
  else
    l ++ [(client, v)]

/-- `XModel::has_effect`, translated with C++ operator precedence: the
return statement `m_effects[client] & effect != 0` parses as
`m_effects[client] & (effect != 0)`, where the boolean comparison is
promoted to the integer `1` or `0` before the bitwise AND. -/
def XModel.has_effect (s : XModel) (client : Window) (effect : Nat) : Bool :=
  if (s.m_effects.find? (fun p => p.1 == client)).isNone then false
  else
    ((s.effectsEntry client).getD 0 &&& (if effect != 0 then 1 else 0)) != 0

/-- `XModel::set_effect`: OR the flag into the stored bit set. -/
def XModel.set_effect (s : XModel) (client : Window) (effect : Nat) : XModel :=
  { s with
    m_effects :=
      storeEffect s.m_effects client (((s.effectsEntry client).getD 0) ||| effect) }

/-- `XModel::clear_effect` as written in the source: despite its doc
comment, the body ORs the flag in (identical to `set_effect`) instead of
clearing it. -/
def XModel.clear_effect (s : XModel) (client : Window) (effect : Nat) : XModel :=
  { s with
    m_effects :=
      storeEffect s.m_effects client (((s.effectsEntry client).getD 0) ||| effect) }

/-- `XModel::remove_all_effects`. -/
def XModel.remove_all_effects (s : XModel) (client : Window) : XModel :=
  { s with m_effects := s.m_effects.filter (fun p => p.1 != client) }

/-- `XModel::enter_move`: a no-op when a move/resize is already recorded. -/
def XModel.enter_move (s : XModel) (client placeholder : Window)
    (pointer : Int × Int) : XModel :=
  if s.m_moveresize.isSome then s
  else
    { s with
      m_moveresize := some ⟨.MR_MOVE, placeholder, client⟩
      m_pointer := pointer }

/-- `XModel::enter_resize`: a no-op when a move/resize is already recorded. -/
def XModel.enter_resize (s : XModel) (client placeholder : Window)
    (pointer : Int × Int) : XModel :=
  if s.m_moveresize.isSome then s
  else
    { s with
      m_moveresize := some ⟨.MR_RESIZE, placeholder, client⟩
      m_pointer := pointer }

/-- `XModel::update_pointer`: returns the pointer delta and updates the
stored position, but only while a move/resize is in progress. -/
def XModel.update_pointer (s : XModel) (x y : Int) : (Int × Int) × XModel :=
  match s.m_moveresize with
  | none => ((0, 0), s)
  | some _ =>
    ((x - s.m_pointer.1, y - s.m_pointer.2), { s with m_pointer := (x, y) })

/-- `XModel::get_move_resize_placeholder`. -/
def XModel.get_move_resize_placeholder (s : XModel) : Window :=
  match s.m_moveresize with
  | none => NoWindow
  | some mr => mr.placeholder

/-- `XModel::get_move_resize_client`. -/
def XModel.get_move_resize_client (s : XModel) : Window :=
  match s.m_moveresize with
  | none => NoWindow
  | some mr => mr.client

/-- `XModel::get_move_resize_state`. -/
def XModel.get_move_resize_state (s : XModel) : MoveResizeState :=
  match s.m_moveresize with
  | none => .MR_INVALID
  | some mr => mr.state

/-- `XModel::exit_move_resize`. -/
def XModel.exit_move_resize (s : XModel) : XModel :=
  { s with m_moveresize := none }

/-- Axis-aligned monitor/window box. -/
structure Box where
  x : Int
  y : Int
  width : Int
  height : Int
deriving DecidableEq

/-- The client position/scale discipline (`ClientPosScale` in the source). -/
inductive ClientPosScale where
  | floating
  | splitLeft
  | splitRight
  | splitTop
  | splitBottom
  | maxed
deriving DecidableEq

/-- The lowest stacking layer (`MIN_LAYER`). -/
def MIN_LAYER : Nat := 1

/-- The highest stacking layer (`MAX_LAYER`). -/
def MAX_LAYER : Nat := 10

/-- The default stacking layer for new clients (`DEF_LAYER`). -/
def DEF_LAYER : Nat := 5

/-- The tagged family of change events published by the client model and
consumed by the dispatcher. -/
inductive Change where
  | clientDesktop (window : Window) (prev : Option Desktop) (next : Desktop)
  | currentDesktop (prev next : Desktop)
  | layer (window : Window) (newLayer : Nat)
  | focus (prev next : Option Window)
  | location (window : Window) (x y : Int)
  | size (window : Window) (width height : Int)
  | screen (window : Window) (bounds : Box)
  | mode (window : Window) (cps : ClientPosScale)
  | childAdd (parent child : Window)
  | childRemove (parent child : Window)
  | unmap (window : Window)
  | destroy (window : Window) (lastDesktop : Desktop) (lastLayer : Nat)
deriving DecidableEq

/-- Discriminator for `SizeChange` events. -/
def Change.is_size_change : Change → Bool
  | .size _ _ _ => true
  | _ => false

/-- Modelled from the spec: the per-client attribute record of the client
model (its translation unit is absent from the sources; only its header
declarations, tests and callers remain). -/
structure ClientData where
  desktop : Desktop
  prevDesktop : Desktop
  layer : Nat
  location : Int × Int
  size : Int × Int
  autofocus : Bool
  mapped : Bool
deriving DecidableEq

/-- Modelled from the spec: the authoritative client-model state — the
number of user desktops, the current desktop index, the clients in
insertion order, the parent/child pairs in insertion order, the focus
holder and the per-desktop record of the last focus holder. -/
structure ClientModel where
  numDesktops : Nat
  current : Nat
  clients : List (Window × ClientData)
  childPairs : List (Window × Window)
  focused : Option Window
  lastFocus : List (Nat × Window)
deriving DecidableEq

/-- Modelled from the spec: the empty client model on `n` user desktops. -/
def ClientModel.initial (n : Nat) : ClientModel :=
  { numDesktops := n, current := 0, clients := [], childPairs := []
    focused := none, lastFocus := [] }

/-- The attribute record of a client, when present. -/
def ClientModel.findClient (s : ClientModel) (w : Window) : Option ClientData :=
  (s.clients.find? (fun p => p.1 == w)).map (fun p => p.2)

/-- `ClientModel::is_client`. -/
def ClientModel.is_client (s : ClientModel) (w : Window) : Bool :=
  (s.clients.find? (fun p => p.1 == w)).isSome

/-- `ClientModel::get_children_of`, in insertion order. -/
def ClientModel.childrenOf (s : ClientModel) (p : Window) : List Window :=
  (s.childPairs.filter (fun q => q.1 == p)).map (fun q => q.2)

/-- `ClientModel::is_child`. -/
def ClientModel.is_child (s : ClientModel) (c : Window) : Bool :=
  s.childPairs.any (fun q => q.2 == c)

/-- `ClientModel::get_parent_of`, when `c` is a child. -/
def ClientModel.parentOf (s : ClientModel) (c : Window) : Option Window :=
  (s.childPairs.find? (fun q => q.2 == c)).map (fun q => q.1)

/-- Rewrite the attribute record of client `w` in place. -/
def ClientModel.updateClient (s : ClientModel) (w : Window)
    (f : ClientData → ClientData) : ClientModel :=
  { s with
    clients := s.clients.map (fun p => if p.1 == w then (p.1, f p.2) else p) }

/-- Whether a desktop is visible when `cur` is the current user desktop:
the current user desktop and the all-desktop are visible. -/
def Desktop.visibleOn (d : Desktop) (cur : Nat) : Bool :=
  match d with
  | .user i => i == cur
  | .all => true
  | _ => false

/-- A client is focusable relative to user desktop `cur` when it exists,
sits on a visible desktop and is mapped. -/
def ClientModel.clientFocusableOn (s : ClientModel) (cur : Nat) (w : Window) :
    Bool :=
  match s.findClient w with
  | some cd => cd.desktop.visibleOn cur && cd.mapped
  | none => false

/-- A window is focusable relative to user desktop `cur` when it is a
focusable client or the child of one. -/
def ClientModel.focusableOn (s : ClientModel) (cur : Nat) (x : Window) : Bool :=
  s.clientFocusableOn cur x ||
    (match s.parentOf x with
     | some p => s.clientFocusableOn cur p
     | none => false)

/-- A window is focusable in the current state. -/
def ClientModel.focusable (s : ClientModel) (x : Window) : Bool :=
  s.focusableOn s.current x

/-- The focus is held by `w` or by one of `w`'s children. -/
def ClientModel.focusHeldBy (s : ClientModel) (w : Window) : Bool :=
  match s.focused with
  | some f => f == w || (s.childrenOf w).contains f
  | none => false

/-- The number of clients currently on the moving or resizing desktop. -/
def ClientModel.mrCount (s : ClientModel) : Nat :=
  s.clients.countP (fun p => p.2.desktop.isMR)

/-- A desktop transition of one client record: the new desktop is stored
and the previous desktop is remembered. -/
def desktopTransition (cd : ClientData) (new : Desktop) : ClientData :=
  { cd with desktop := new, prevDesktop := cd.desktop }

/-- Modelled from the spec: `ClientModel::add_client` — insert the window
on the current user desktop at the default layer, mapped, emitting the
desktop event, the layer event and (for autofocusing clients) the focus
event. -/
def ClientModel.add_client (s : ClientModel) (w : Window) (loc sz : Int × Int)
    (autofocus : Bool) : ClientModel × List Change :=
  if s.is_client w || s.is_child w || w == NoWindow then (s, [])
  else
    let cd : ClientData :=
      { desktop := .user s.current, prevDesktop := .user s.current
        layer := DEF_LAYER, location := loc, size := sz
        autofocus := autofocus, mapped := true }
    let s1 := { s with clients := s.clients ++ [(w, cd)] }
    let baseEvents :=
      [Change.clientDesktop w none (.user s.current), Change.layer w DEF_LAYER]
    if autofocus then
      ({ s1 with focused := some w },
       baseEvents ++ [Change.focus s.focused (some w)])
    else (s1, baseEvents)

/-- Modelled from the spec: `ClientModel::remove_client` — emit the focus
loss when the window or one of its children is focused, a child-remove
event per child in insertion order, and a destroy event carrying the last
desktop and layer; the window and its children leave the model. -/
def ClientModel.remove_client (s : ClientModel) (w : Window) :
    ClientModel × List Change :=
  match s.findClient w with
  | none => (s, [])
  | some cd =>
    let kids := s.childrenOf w
    let lost := s.focusHeldBy w
    let events :=
      (if lost then [Change.focus s.focused none] else [])
        ++ kids.map (fun c => Change.childRemove w c)
        ++ [Change.destroy w cd.desktop cd.layer]
    ({ s with
        clients := s.clients.filter (fun p => p.1 != w)
        childPairs := s.childPairs.filter (fun q => q.1 != w)
        focused := if lost then none else s.focused },
     events)

/-- Modelled from the spec: `ClientModel::add_child` — a no-op when the
parent does not exist or the child is already bound; otherwise emit the
child-add event, and focus the child when the parent is focusable and was
created with autofocus. -/
def ClientModel.add_child (s : ClientModel) (p c : Window) :
    ClientModel × List Change :=
  match s.findClient p with
  | none => (s, [])
  | some cd =>
    if s.is_child c || s.is_client c || c == NoWindow then (s, [])
    else
      let s1 := { s with childPairs := s.childPairs ++ [(p, c)] }
      if cd.autofocus && s.clientFocusableOn s.current p then
        ({ s1 with focused := some c },
         [Change.childAdd p c, Change.focus s.focused (some c)])
      else (s1, [Change.childAdd p c])

/-- Modelled from the spec: `ClientModel::remove_child` — emit
`FocusChange(c, parent-or-null)` when the child is focused, then the
child-remove event. -/
def ClientModel.remove_child (s : ClientModel) (c : Window)
    (refocusParent : Bool) : ClientModel × List Change :=
  match s.parentOf c with
  | none => (s, [])
  | some p =>
    let isFocused := s.focused == some c
    let newFocus : Option Window := if refocusParent then some p else none
    let events :=
      (if isFocused then [Change.focus (some c) newFocus] else [])
        ++ [Change.childRemove p c]
    ({ s with
        childPairs := s.childPairs.filter (fun q => q.2 != c)
        focused := if isFocused then newFocus else s.focused },
     events)

/-- Modelled from the spec: `ClientModel::focus` — position the focus at a
focusable window, emitting one focus event when it actually moves. -/
def ClientModel.focusOn (s : ClientModel) (w : Window) :
    ClientModel × List Change :=
  if s.focusable w && s.focused != some w then
    ({ s with focused := some w }, [Change.focus s.focused (some w)])
  else (s, [])

/-- Modelled from the spec: `ClientModel::unfocus`. -/
def ClientModel.unfocus (s : ClientModel) : ClientModel × List Change :=
  match s.focused with
  | some f => ({ s with focused := none }, [Change.focus (some f) none])
  | none => (s, [])

/-- Modelled from the spec: `ClientModel::iconify` — only from a user or
all desktop; emits focus loss when held, then the desktop event. -/
def ClientModel.iconify (s : ClientModel) (w : Window) :
    ClientModel × List Change :=
  match s.findClient w with
  | none => (s, [])
  | some cd =>
    if cd.desktop.is_user_desktop || cd.desktop.is_all_desktop then
      let lost := s.focusHeldBy w
      let s1 := s.updateClient w (fun c => desktopTransition c .icon)
      ({ s1 with focused := if lost then none else s.focused },
       (if lost then [Change.focus s.focused none] else [])
         ++ [Change.clientDesktop w (some cd.desktop) .icon])
    else (s, [])

/-- Modelled from the spec: `ClientModel::deiconify` — only from the icon
desktop; the client returns to the current user desktop (or the
all-desktop when it was sticky before), then regains focus when it was
created with autofocus. -/
def ClientModel.deiconify (s : ClientModel) (w : Window) :
    ClientModel × List Change :=
  match s.findClient w with
  | none => (s, [])
  | some cd =>
    if cd.desktop.is_icon_desktop then
      let newd : Desktop :=
        if cd.prevDesktop == Desktop.all then .all else .user s.current
      let s1 := s.updateClient w (fun c => desktopTransition c newd)
      if cd.autofocus then
        ({ s1 with focused := some w },
         [Change.clientDesktop w (some .icon) newd,
          Change.focus s.focused (some w)])
      else (s1, [Change.clientDesktop w (some .icon) newd])
    else (s, [])

/-- Modelled from the spec: `ClientModel::start_moving` — requires that no
move/resize is in progress anywhere and that the window sits on a user or
all desktop (so is neither iconified nor moving nor resizing); emits the
focus loss when held, then the desktop event. -/
def ClientModel.start_moving (s : ClientModel) (w : Window) :
    ClientModel × List Change :=
  match s.findClient w with
  | none => (s, [])
  | some cd =>
    if (cd.desktop.is_user_desktop || cd.desktop.is_all_desktop)
        && s.mrCount == 0 then
      let lost := s.focusHeldBy w
      let s1 := s.updateClient w (fun c => desktopTransition c .moving)
      ({ s1 with focused := if lost then none else s.focused },
       (if lost then [Change.focus s.focused none] else [])
         ++ [Change.clientDesktop w (some cd.desktop) .moving])
    else (s, [])

/-- Modelled from the spec: `ClientModel::start_resizing` — the resizing
counterpart of `start_moving`. -/
def ClientModel.start_resizing (s : ClientModel) (w : Window) :
    ClientModel × List Change :=
  match s.findClient w with
  | none => (s, [])
  | some cd =>
    if (cd.desktop.is_user_desktop || cd.desktop.is_all_desktop)
        && s.mrCount == 0 then
      let lost := s.focusHeldBy w
      let s1 := s.updateClient w (fun c => desktopTransition c .resizing)
      ({ s1 with focused := if lost then none else s.focused },
       (if lost then [Change.focus s.focused none] else [])
         ++ [Change.clientDesktop w (some cd.desktop) .resizing])
    else (s, [])

/-- Modelled from the spec: `ClientModel::stop_moving` — restore the
desktop remembered at the start of the move, emit the location event, and
refocus the window when it was created with autofocus. -/
def ClientModel.stop_moving (s : ClientModel) (w : Window) (loc : Int × Int) :
    ClientModel × List Change :=
  match s.findClient w with
  | none => (s, [])
  | some cd =>
    if cd.desktop.is_moving_desktop then
      let s1 := s.updateClient w
        (fun c => { desktopTransition c c.prevDesktop with location := loc })
      let events :=
        [Change.clientDesktop w (some .moving) cd.prevDesktop,
         Change.location w loc.1 loc.2]
          ++ (if cd.autofocus then [Change.focus s.focused (some w)] else [])
      ({ s1 with focused := if cd.autofocus then some w else s.focused },
       events)
    else (s, [])

/-- Modelled from the spec: `ClientModel::stop_resizing` — restore the
desktop remembered at the start of the resize; a non-positive dimension is
rejected (no size event, size unchanged), while the desktop restoration
and the autofocus refocusing still take place. -/
def ClientModel.stop_resizing (s : ClientModel) (w : Window) (sz : Int × Int) :
    ClientModel × List Change :=
  match s.findClient w with
  | none => (s, [])
  | some cd =>
    if cd.desktop.is_resizing_desktop then
      let s1 := s.updateClient w (fun c =>
        if 0 < sz.1 ∧ 0 < sz.2 then
          { desktopTransition c c.prevDesktop with size := sz }
        else desktopTransition c c.prevDesktop)
      let events :=
        [Change.clientDesktop w (some .resizing) cd.prevDesktop]
          ++ (if 0 < sz.1 ∧ 0 < sz.2 then [Change.size w sz.1 sz.2] else [])
          ++ (if cd.autofocus then [Change.focus s.focused (some w)] else [])
      ({ s1 with focused := if cd.autofocus then some w else s.focused },
       events)
    else (s, [])

/-- The attribute record owning a window for visibility purposes: the
window's own record, or its parent's when the window is a child. -/
def ClientModel.ownerData (s : ClientModel) (x : Window) : Option ClientData :=
  match s.parentOf x with
  | some p => s.findClient p
  | none => s.findClient x

/-- Modelled from the spec: the focus holder dropped by a switch to user
desktop `newc` — the focused window whose owning client sits on a user
desktop other than `newc` (so it is invisible after the switch). -/
def ClientModel.focusLostBySwitch (s : ClientModel) (newc : Nat) :
    Option Window :=
  match s.focused with
  | none => none
  | some f =>
    match s.ownerData f with
    | none => none
    | some cd =>
      match cd.desktop with
      | .user i => if i ≠ newc then some f else none
      | _ => none

/-- Modelled from the spec: the last-focus table after a switch to `newc`,
recording the dropped focus holder against the desktop it was on. -/
def ClientModel.recordLastFocus (s : ClientModel) (newc : Nat) :
    List (Nat × Window) :=
  match s.focusLostBySwitch newc with
  | some f => (s.lastFocus.filter (fun q => q.1 != s.current)) ++ [(s.current, f)]
  | none => s.lastFocus

/-- Modelled from the spec: the focus holder restored by a switch to user
desktop `newc` — when focus is empty after the switch and the last focus
holder recorded for `newc` is known and still focusable there. -/
def ClientModel.focusRestoredBySwitch (s : ClientModel) (newc : Nat) :
    Option Window :=
  if (s.focusLostBySwitch newc).isSome || s.focused.isNone then
    match ((s.recordLastFocus newc).find? (fun q => q.1 == newc)).map
        (fun q => q.2) with
    | some r => if s.focusableOn newc r then some r else none
    | none => none
  else none

/-- Modelled from the spec: switch the current user desktop to `newc`,
emitting the focus loss (when the focused client becomes invisible), the
current-desktop event, then the focus restoration (when the previous
focus target on the new desktop is known). -/
def ClientModel.switch_to_desktop (s : ClientModel) (newc : Nat) :
    ClientModel × List Change :=
  let lost := s.focusLostBySwitch newc
  let restored := s.focusRestoredBySwitch newc
  let focused1 : Option Window :=
    match restored with
    | some r => some r
    | none => if lost.isSome then none else s.focused
  ({ s with
      current := newc
      focused := focused1
      lastFocus := s.recordLastFocus newc },
   (match lost with | some f => [Change.focus (some f) none] | none => [])
     ++ [Change.currentDesktop (.user s.current) (.user newc)]
     ++ (match restored with
         | some r => [Change.focus none (some r)]
         | none => []))

/-- Modelled from the spec: `ClientModel::next_desktop` — requires no
active move/resize; wraps modulo the desktop count. -/
def ClientModel.next_desktop (s : ClientModel) : ClientModel × List Change :=
  if s.mrCount == 0 then
    s.switch_to_desktop ((s.current + 1) % s.numDesktops)
  else (s, [])

/-- Modelled from the spec: `ClientModel::prev_desktop` — requires no
active move/resize; wraps modulo the desktop count. -/
def ClientModel.prev_desktop (s : ClientModel) : ClientModel × List Change :=
  if s.mrCount == 0 then
    s.switch_to_desktop ((s.current + s.numDesktops - 1) % s.numDesktops)
  else (s, [])

/-- `ClientModel::find_layer` (0 for unknown windows). -/
def ClientModel.find_layer (s : ClientModel) (w : Window) : Nat :=
  match s.findClient w with
  | some cd => cd.layer
  | none => 0

/-- Modelled from the spec: `ClientModel::up_layer` — clamped at
`MAX_LAYER`; emits the layer event only when the layer moves. -/
def ClientModel.up_layer (s : ClientModel) (w : Window) :
    ClientModel × List Change :=
  match s.findClient w with
  | none => (s, [])
  | some cd =>
    if cd.layer < MAX_LAYER then
      (s.updateClient w (fun c => { c with layer := c.layer + 1 }),
       [Change.layer w (cd.layer + 1)])
    else (s, [])

/-- Modelled from the spec: `ClientModel::down_layer` — clamped at
`MIN_LAYER`; emits the layer event only when the layer moves. -/
def ClientModel.down_layer (s : ClientModel) (w : Window) :
    ClientModel × List Change :=
  match s.findClient w with
  | none => (s, [])
  | some cd =>
    if MIN_LAYER < cd.layer then
      (s.updateClient w (fun c => { c with layer := c.layer - 1 }),
       [Change.layer w (cd.layer - 1)])
    else (s, [])

/-- Clamp a requested layer into `[MIN_LAYER, MAX_LAYER]`. -/
def clampLayer (l : Nat) : Nat :=
  min MAX_LAYER (max MIN_LAYER l)

/-- Modelled from the spec: `ClientModel::set_layer` — clamp the request;
a no-op when the clamped layer equals the current one. -/
def ClientModel.set_layer (s : ClientModel) (w : Window) (l : Nat) :
    ClientModel × List Change :=
  match s.findClient w with
  | none => (s, [])
  | some cd =>
    let target := clampLayer l
    if target ≠ cd.layer then
      (s.updateClient w (fun c => { c with layer := target }),
       [Change.layer w target])
    else (s, [])

/-- Modelled from the spec: `ClientModel::toggle_stick` — swap between the
current user desktop and the all-desktop, emitting exactly one desktop
event and no focus event. -/
def ClientModel.toggle_stick (s : ClientModel) (w : Window) :
    ClientModel × List Change :=
  match s.findClient w with
  | none => (s, [])
  | some cd =>
    match cd.desktop with
    | .user i =>
      (s.updateClient w (fun c => desktopTransition c .all),
       [Change.clientDesktop w (some (.user i)) .all])
    | .all =>
      (s.updateClient w (fun c => desktopTransition c (.user s.current)),
       [Change.clientDesktop w (some .all) (.user s.current)])
    | _ => (s, [])

/-- The public operation surface of the modelled client model. -/
inductive Op where
  | add_client (w : Window) (loc sz : Int × Int) (autofocus : Bool)
  | remove_client (w : Window)
  | add_child (p c : Window)
  | remove_child (c : Window) (refocusParent : Bool)
  | focusOn (w : Window)
  | unfocus
  | iconify (w : Window)
  | deiconify (w : Window)
  | start_moving (w : Window)
  | start_resizing (w : Window)
  | stop_moving (w : Window) (loc : Int × Int)
  | stop_resizing (w : Window) (sz : Int × Int)
  | next_desktop
  | prev_desktop
  | up_layer (w : Window)
  | down_layer (w : Window)
  | set_layer (w : Window) (l : Nat)
  | toggle_stick (w : Window)
deriving DecidableEq

/-- Apply one public operation. -/
def applyOp (s : ClientModel) : Op → ClientModel × List Change
  | .add_client w loc sz af => s.add_client w loc sz af
  | .remove_client w => s.remove_client w
  | .add_child p c => s.add_child p c
  | .remove_child c r => s.remove_child c r
  | .focusOn w => s.focusOn w
  | .unfocus => s.unfocus
  | .iconify w => s.iconify w
  | .deiconify w => s.deiconify w
  | .start_moving w => s.start_moving w
  | .start_resizing w => s.start_resizing w
  | .stop_moving w loc => s.stop_moving w loc
  | .stop_resizing w sz => s.stop_resizing w sz
  | .next_desktop => s.next_desktop
  | .prev_desktop => s.prev_desktop
  | .up_layer w => s.up_layer w
  | .down_layer w => s.down_layer w
  | .set_layer w l => s.set_layer w l
  | .toggle_stick w => s.toggle_stick w

/-- States reachable from an empty model by public operations. -/
inductive Reachable : ClientModel → Prop where
  | init (n : Nat) : Reachable (ClientModel.initial n)
  | step (s : ClientModel) (op : Op) :
      Reachable s → Reachable (applyOp s op).1

/-- The side-effect operations issued by the change dispatcher, in call
order: windowing-server calls (`XData`), X-side model calls (`XModel`) and
re-entrant client-model calls, recorded as an abstract trace.  (Calls that
are guarded by the `WITH_BORDERS` conditional are omitted, since nothing
in this repository defines that symbol.) -/
inductive XCall where
  | raise (w : Window)
  | grab_mouse (w : Window)
  | ungrab_mouse (w : Window)
  | set_input_focus (w : Window)
  | map_win (w : Window)
  | unmap_win (w : Window)
  | move_window (w : Window) (x y : Int)
  | resize_window (w : Window) (width height : Int)
  | destroy_win (w : Window)
  | create_window (w : Window)
  | select_input (w : Window)
  | create_gc (w : Window)
  | confine_pointer (w : Window)
  | stop_confining_pointer
  | set_effect (w : Window) (e : Nat)
  | register_icon (client icon : Window)
  | unregister_icon (client : Window)
  | enter_move (client placeholder : Window)
  | enter_resize (client placeholder : Window)
  | exit_move_resize
  | model_unfocus_if_focused (w : Window)
  | model_focus (w : Window)
  | model_cycle_focus_forward
  | model_change_location (w : Window) (x y : Int)
  | model_change_size (w : Window) (width height : Int)
  | log_message
deriving DecidableEq

/-- Discriminator for raise calls. -/
def XCall.is_raise : XCall → Bool
  | .raise _ => true
  | _ => false

/-- The environment the dispatcher consults: the query surface of the
client model (whose translation unit is absent from the sources), of the
`XModel` icon/move-resize registry, and the outcome oracle for
`set_input_focus`.  Queries are read-only within one batch. -/
structure DispatchEnv where
  is_client : Window → Bool
  is_child : Window → Bool
  get_parent_of : Window → Window
  get_children_of : Window → List Window
  get_focused : Window
  find_layer : Window → Nat
  visible_in_layer_order : List Window
  icons : List Window
  moveresize_placeholder : Window
  set_input_focus_ok : Window → Bool
  is_visible_desktop : Desktop → Bool
  get_clients_of : Desktop → List Window
  get_mode : Window → ClientPosScale
  attributes : Window → Box
  find_icon_from_client : Window → Option Window
  fresh_window : Nat → Window
  icon_width : Int
  icon_height : Int
  root_screen : Box

/-- The result of dispatching: the emitted call trace, the two deferred
flags and the fresh-window counter. -/
structure DispatchOut where
  calls : List XCall
  relayer : Bool
  reflow : Bool
  counter : Nat
deriving DecidableEq

/-- `ClientModelEvents::map_all`. -/
def map_all (ws : List Window) : List XCall :=
  ws.flatMap (fun w => [XCall.set_effect w EXPECT_MAP, XCall.map_win w])

/-- `ClientModelEvents::unmap_unfocus_all`. -/
def unmap_unfocus_all (ws : List Window) : List XCall :=
  ws.flatMap (fun w =>
    [XCall.set_effect w EXPECT_UNMAP, XCall.model_unfocus_if_focused w,
     XCall.unmap_win w])

/-- `ClientModelEvents::raise_family`: raise the client, then each of its
children in insertion order. -/
def raise_family (env : DispatchEnv) (client : Window) : List XCall :=
  XCall.raise client :: (env.get_children_of client).map XCall.raise

/-- `ClientModelEvents::handle_focus_change`: ungrab-or-grab bookkeeping
around the `set_input_focus` attempt; always schedules the relayer. -/
def handle_focus_change (env : DispatchEnv) (prev next : Window) :
    List XCall × Bool :=
  ((if env.is_client prev || env.is_child prev then [XCall.grab_mouse prev]
    else [])
     ++ (if next != NoWindow then
           XCall.set_input_focus next ::
             (if env.set_input_focus_ok next then [XCall.ungrab_mouse next]
              else [XCall.model_cycle_focus_forward, XCall.grab_mouse next])
         else [XCall.set_input_focus NoWindow]),
   true)

/-- `ClientModelEvents::register_new_icon`: create, configure and map the
icon window, unfocus the client and (optionally) unmap it, register the
icon.  Returns the trace and the next fresh-window counter; every caller
also sets the icon-reflow flag. -/
def register_new_icon (env : DispatchEnv) (k : Nat) (client : Window)
    (do_unmap : Bool) : List XCall × Nat :=
  let icon_window := env.fresh_window k
  ([XCall.create_window icon_window, XCall.select_input icon_window,
    XCall.resize_window icon_window env.icon_width env.icon_height,
    XCall.map_win icon_window, XCall.create_gc icon_window,
    XCall.model_unfocus_if_focused client]
     ++ (if do_unmap then
           [XCall.set_effect client EXPECT_UNMAP, XCall.unmap_win client]
         else [])
     ++ [XCall.register_icon client icon_window],
   k + 1)

/-- `ClientModelEvents::create_placeholder`: create, place and map the
placeholder over the client and confine the pointer to it; every caller
also sets the relayer flag. -/
def create_placeholder (env : DispatchEnv) (k : Nat) (client : Window) :
    List XCall × Window × Nat :=
  let attr := env.attributes client
  let ph := env.fresh_window k
  ([XCall.create_window ph, XCall.move_window ph attr.x attr.y,
    XCall.resize_window ph attr.width attr.height, XCall.map_win ph,
    XCall.confine_pointer ph],
   ph, k + 1)

/-- `ClientModelEvents::start_moving` (the dispatcher-side helper). -/
def start_moving_disp (env : DispatchEnv) (k : Nat) (client : Window) :
    List XCall × Nat :=
  let r := create_placeholder env k client
  (r.1 ++ [XCall.set_effect client EXPECT_UNMAP,
           XCall.model_unfocus_if_focused client, XCall.unmap_win client,
           XCall.enter_move client r.2.1],
   r.2.2)

/-- `ClientModelEvents::start_resizing` (the dispatcher-side helper). -/
def start_resizing_disp (env : DispatchEnv) (k : Nat) (client : Window) :
    List XCall × Nat :=
  let r := create_placeholder env k client
  (r.1 ++ [XCall.set_effect client EXPECT_UNMAP,
           XCall.model_unfocus_if_focused client, XCall.unmap_win client,
           XCall.enter_resize client r.2.1],
   r.2.2)

/-- `ClientModelEvents::handle_new_client_desktop_change`: a fresh client
lands on a user desktop (relayer when visible) or becomes an icon; any
other request is logged and treated as the icon case. -/
def handle_new_client_desktop_change (env : DispatchEnv) (k : Nat)
    (next : Desktop) (client : Window) : DispatchOut :=
  match next with
  | .user _ => ⟨[], env.is_visible_desktop next, false, k⟩
  | .icon =>
    let r := register_new_icon env k client true
    ⟨r.1, false, true, r.2⟩
  | _ =>
    let r := register_new_icon env k client true
    ⟨XCall.log_message :: r.1, false, true, r.2⟩

/-- `ClientModelEvents::handle_client_change_from_user_desktop`. -/
def handle_client_change_from_user_desktop (env : DispatchEnv) (k : Nat)
    (old new_ : Desktop) (client : Window) : DispatchOut :=
  let children := env.get_children_of client
  match new_ with
  | .user _ =>
    let v1 := env.is_visible_desktop old
    let v2 := env.is_visible_desktop new_
    if v1 && !v2 then
      ⟨[XCall.set_effect client EXPECT_UNMAP,
        XCall.model_unfocus_if_focused client, XCall.unmap_win client]
         ++ unmap_unfocus_all children, false, false, k⟩
    else if !v1 && v2 then
      ⟨[XCall.set_effect client EXPECT_MAP, XCall.map_win client,
        XCall.model_focus client] ++ map_all children, true, false, k⟩
    else if !v1 && !v2 then ⟨[], false, false, k⟩
    else ⟨[XCall.log_message], false, false, k⟩
  | .all =>
    if !env.is_visible_desktop old then
      ⟨[XCall.set_effect client EXPECT_MAP, XCall.map_win client,
        XCall.model_focus client] ++ map_all children, true, false, k⟩
    else ⟨[], false, false, k⟩
  | .icon =>
    let v := env.is_visible_desktop old
    let r := register_new_icon env k client v
    ⟨(if v then unmap_unfocus_all children else []) ++ r.1, false, true, r.2⟩
  | .moving =>
    let r := start_moving_disp env k client
    ⟨unmap_unfocus_all children ++ r.1, true, false, r.2⟩
  | .resizing =>
    let r := start_resizing_disp env k client
    ⟨unmap_unfocus_all children ++ r.1, true, false, r.2⟩

/-- `ClientModelEvents::handle_client_change_from_all_desktop`. -/
def handle_client_change_from_all_desktop (env : DispatchEnv) (k : Nat)
    (new_ : Desktop) (client : Window) : DispatchOut :=
  let children := env.get_children_of client
  match new_ with
  | .user _ =>
    if !env.is_visible_desktop new_ then
      ⟨[XCall.set_effect client EXPECT_UNMAP,
        XCall.model_unfocus_if_focused client, XCall.unmap_win client]
         ++ unmap_unfocus_all children, true, false, k⟩
    else ⟨[], false, false, k⟩
  | .icon =>
    let r := register_new_icon env k client true
    ⟨unmap_unfocus_all children ++ r.1, false, true, r.2⟩
  | .moving =>
    let r := start_moving_disp env k client
    ⟨unmap_unfocus_all children ++ r.1, true, false, r.2⟩
  | .resizing =>
    let r := start_resizing_disp env k client
    ⟨unmap_unfocus_all children ++ r.1, true, false, r.2⟩
  | .all => ⟨[], false, false, k⟩

/-- `ClientModelEvents::handle_client_change_from_icon_desktop`. -/
def handle_client_change_from_icon_desktop (env : DispatchEnv) (k : Nat)
    (new_ : Desktop) (client : Window) : DispatchOut :=
  let children := env.get_children_of client
  if new_.is_user_desktop || new_.is_all_desktop then
    match env.find_icon_from_client client with
    | none => ⟨[XCall.log_message], false, false, k⟩
    | some iconwin =>
      ⟨[XCall.destroy_win iconwin, XCall.unregister_icon client]
         ++ (if env.is_visible_desktop new_ then
               [XCall.set_effect client EXPECT_MAP, XCall.map_win client,
                XCall.model_focus client] ++ map_all children
             else []),
       false, true, k⟩
  else ⟨[], false, false, k⟩

/-- `ClientModelEvents::handle_client_change_from_moving_desktop`. -/
def handle_client_change_from_moving_desktop (env : DispatchEnv) (k : Nat)
    (new_ : Desktop) (client : Window) : DispatchOut :=
  let children := env.get_children_of client
  if new_.is_user_desktop || new_.is_all_desktop then
    let ph := env.moveresize_placeholder
    if ph == NoWindow then ⟨[XCall.log_message], false, false, k⟩
    else
      let attr := env.attributes ph
      ⟨[XCall.move_window client attr.x attr.y,
        XCall.stop_confining_pointer, XCall.destroy_win ph,
        XCall.exit_move_resize]
         ++ (if env.is_visible_desktop new_ then
               [XCall.set_effect client EXPECT_MAP, XCall.map_win client,
                XCall.model_focus client] ++ map_all children
             else []),
       env.is_visible_desktop new_, false, k⟩
  else ⟨[], false, false, k⟩

/-- `ClientModelEvents::handle_client_change_from_resizing_desktop`. -/
def handle_client_change_from_resizing_desktop (env : DispatchEnv) (k : Nat)
    (new_ : Desktop) (client : Window) : DispatchOut :=
  let children := env.get_children_of client
  if new_.is_user_desktop || new_.is_all_desktop then
    let ph := env.moveresize_placeholder
    if ph == NoWindow then ⟨[XCall.log_message], false, false, k⟩
    else
      let attr := env.attributes ph
      ⟨[XCall.resize_window client attr.width attr.height,
        XCall.stop_confining_pointer, XCall.destroy_win ph,
        XCall.exit_move_resize]
         ++ (if env.is_visible_desktop new_ then
               [XCall.set_effect client EXPECT_MAP, XCall.map_win client,
                XCall.model_focus client] ++ map_all children
             else []),
       env.is_visible_desktop new_, false, k⟩
  else ⟨[], false, false, k⟩

/-- `ClientModelEvents::handle_client_desktop_change`: dispatch on the
previous desktop kind. -/
def handle_client_desktop_change (env : DispatchEnv) (k : Nat)
    (client : Window) (prevOpt : Option Desktop) (next : Desktop) :
    DispatchOut :=
  match prevOpt with
  | none => handle_new_client_desktop_change env k next client
  | some old =>
    match old with
    | .user _ => handle_client_change_from_user_desktop env k old next client
    | .all => handle_client_change_from_all_desktop env k next client
    | .icon => handle_client_change_from_icon_desktop env k next client
    | .moving => handle_client_change_from_moving_desktop env k next client
    | .resizing => handle_client_change_from_resizing_desktop env k next client

/-- `ClientModelEvents::handle_current_desktop_change`: hide the set
difference old minus new, show the set difference new minus old (both over
sorted client lists), children along with their parents; always schedules
the relayer. -/
def handle_current_desktop_change (env : DispatchEnv) (k : Nat)
    (prev next : Desktop) : DispatchOut :=
  let oldL := (env.get_clients_of prev).mergeSort (fun a b => a ≤ b)
  let newL := (env.get_clients_of next).mergeSort (fun a b => a ≤ b)
  let to_hide := oldL.filter (fun w => !newL.contains w)
  let to_show := newL.filter (fun w => !oldL.contains w)
  ⟨to_hide.flatMap (fun w =>
      [XCall.set_effect w EXPECT_UNMAP, XCall.unmap_win w]
        ++ unmap_unfocus_all (env.get_children_of w))
     ++ to_show.flatMap (fun w =>
       [XCall.set_effect w EXPECT_MAP, XCall.map_win w]
         ++ map_all (env.get_children_of w)),
   true, false, k⟩

/-- `ClientModelEvents::update_location_size_for_cps`: the entire switch
over the tiled modes is guarded by `WITH_BORDERS`, which this repository
never defines, so the compiled routine issues no calls. -/
def update_location_size_for_cps (_env : DispatchEnv) (_w : Window)
    (_m : ClientPosScale) : List XCall :=
  []

/-- `ClientModelEvents::handle_screen_change`: clamp a floating window
into its new screen box (size first, then location); tiled modes defer to
`update_location_size_for_cps`. -/
def handle_screen_change (env : DispatchEnv) (k : Nat) (client : Window)
    (box : Box) : DispatchOut :=
  if box == ⟨-1, -1, 0, 0⟩ then ⟨[], false, false, k⟩
  else
    let attr := env.attributes client
    match env.get_mode client with
    | .floating =>
      let new_width :=
        if attr.x + attr.width > box.x + box.width then
          (box.x + box.width) - attr.x
        else attr.width
      let new_height :=
        if attr.y + attr.height > box.y + box.height then
          (box.y + box.height) - attr.y
        else attr.height
      let new_x :=
        if attr.x < box.x || attr.x ≥ box.x + box.width then box.x else attr.x
      let new_y :=
        if attr.y < box.y || attr.y ≥ box.y + box.height then box.y else attr.y
      ⟨[XCall.model_change_size client new_width new_height,
        XCall.model_change_location client new_x new_y], false, false, k⟩
    | m => ⟨update_location_size_for_cps env client m, false, false, k⟩

/-- `ClientModelEvents::handle_mode_change`. -/
def handle_mode_change (env : DispatchEnv) (k : Nat) (client : Window)
    (m : ClientPosScale) : DispatchOut :=
  if m == ClientPosScale.floating then ⟨[], false, false, k⟩
  else ⟨update_location_size_for_cps env client m, false, false, k⟩

/-- `ClientModelEvents::handle_destroy_change`: tear down the icon (icon
desktop) or the placeholder and pointer grab (moving/resizing desktop)
left behind by a destroyed client.  (When the icon lookup fails the C++
dereferences a null pointer; the model issues no calls there.) -/
def handle_destroy_change (env : DispatchEnv) (k : Nat) (client : Window)
    (old : Desktop) : DispatchOut :=
  match old with
  | .icon =>
    match env.find_icon_from_client client with
    | some iconwin =>
      ⟨[XCall.unregister_icon client, XCall.destroy_win iconwin],
       false, true, k⟩
    | none => ⟨[], false, true, k⟩
  | .moving =>
    ⟨[XCall.stop_confining_pointer,
      XCall.destroy_win env.moveresize_placeholder, XCall.exit_move_resize],
     false, false, k⟩
  | .resizing =>
    ⟨[XCall.stop_confining_pointer,
      XCall.destroy_win env.moveresize_placeholder, XCall.exit_move_resize],
     false, false, k⟩
  | _ => ⟨[], false, false, k⟩

/-- `ClientModelEvents::handle_unmap_change`. -/
def handle_unmap_change (env : DispatchEnv) (k : Nat) (client : Window) :
    DispatchOut :=
  ⟨unmap_unfocus_all (env.get_children_of client), false, false, k⟩

/-- One iteration of the `handle_queued_changes` dispatch loop. -/
def dispatch_one (env : DispatchEnv) (k : Nat) : Change → DispatchOut
  | .layer _ _ => ⟨[], true, false, k⟩
  | .focus prev next =>
    let r := handle_focus_change env (prev.getD NoWindow) (next.getD NoWindow)
    ⟨r.1, r.2, false, k⟩
  | .clientDesktop w prevOpt next =>
    handle_client_desktop_change env k w prevOpt next
  | .currentDesktop prev next => handle_current_desktop_change env k prev next
  | .screen w box => handle_screen_change env k w box
  | .mode w m => handle_mode_change env k w m
  | .location w x y => ⟨[XCall.move_window w x y], false, false, k⟩
  | .size w wd ht => ⟨[XCall.resize_window w wd ht], false, false, k⟩
  | .destroy w d _ => handle_destroy_change env k w d
  | .unmap w => handle_unmap_change env k w
  | .childAdd _ _ => ⟨[], false, false, k⟩
  | .childRemove _ _ => ⟨[], false, false, k⟩

/-- The dispatch loop over the whole drained queue, accumulating the
trace and OR-ing the deferred flags. -/
def dispatch_all (env : DispatchEnv) : List Change → Nat → DispatchOut
  | [], k => ⟨[], false, false, k⟩
  | c :: rest, k =>
    let r1 := dispatch_one env k c
    let r2 := dispatch_all env rest r1.counter
    ⟨r1.calls ++ r2.calls, r1.relayer || r2.relayer, r1.reflow || r2.reflow,
     r2.counter⟩

/-- The focused window resolved to its family head: children stand for
their parents. -/
def resolve_focused (env : DispatchEnv) : Window :=
  let f := env.get_focused
  if f != NoWindow && env.is_child f then env.get_parent_of f else f

/-- The main loop of `ClientModelEvents::do_relayer`: walk the visible
clients in layer order, raising each family, splicing the focused family
in before the first strictly higher layer (or at the end). -/
def relayer_loop (env : DispatchEnv) (fLayer : Nat) :
    List Window → Window → List XCall
  | [], foc => if foc != NoWindow then raise_family env foc else []
  | c :: rest, foc =>
    if foc != NoWindow && env.find_layer c > fLayer then
      raise_family env foc
        ++ (if c != NoWindow then raise_family env c else [])
        ++ relayer_loop env fLayer rest NoWindow
    else if c != foc then
      raise_family env c ++ relayer_loop env fLayer rest foc
    else relayer_loop env fLayer rest foc

/-- `ClientModelEvents::do_relayer`: families in layer order with the
focused family spliced on top of its layer, then all icons, then the
move/resize placeholder. -/
def do_relayer (env : DispatchEnv) : List XCall :=
  let f := resolve_focused env
  relayer_loop env (env.find_layer f) env.visible_in_layer_order f
    ++ env.icons.map XCall.raise
    ++ (if env.moveresize_placeholder != NoWindow then
          [XCall.raise env.moveresize_placeholder]
        else [])

/-- The placement loop of `ClientModelEvents::reposition_icons`. -/
def reposition_icons_loop (iw ih sw : Int) :
    List Window → Int → Int → List XCall
  | [], _, _ => []
  | icon :: rest, x, y =>
    let x1 := if x + iw > sw then 0 else x
    let y1 := if x + iw > sw then y + ih else y
    XCall.move_window icon x1 y1 :: reposition_icons_loop iw ih sw rest (x1 + iw) y1

/-- `ClientModelEvents::reposition_icons`: lay the icons in rows from the
top-left of the root screen. -/
def reposition_icons (env : DispatchEnv) : List XCall :=
  reposition_icons_loop env.icon_width env.icon_height env.root_screen.width
    env.icons 0 0

/-- `ClientModelEvents::handle_queued_changes`: reset the deferred flags,
dispatch every queued change, then run the relayer and the icon reflow at
most once each, in that order. -/
def handle_queued_changes (env : DispatchEnv) (changes : List Change) :
    List XCall :=
  let out := dispatch_all env changes 0
  out.calls ++ (if out.relayer then do_relayer env else [])
    ++ (if out.reflow then reposition_icons env else [])

/-- The relayer raise order stated by the specification: all families at
the focused window's layer or below (focused excluded), then the focused
family, then all strictly higher families; without a focus holder, plain
layer order. -/
def relayerSpecOrder (env : DispatchEnv) : List Window :=
  let f := resolve_focused env
  if f = NoWindow then env.visible_in_layer_order
  else
    (env.visible_in_layer_order.filter (fun c =>
        c != f && decide (env.find_layer c ≤ env.find_layer f)))
      ++ [f]
      ++ (env.visible_in_layer_order.filter (fun c =>
        decide (env.find_layer f < env.find_layer c)))

/-- The state invariant carried through the reachability induction:
client keys are unique and at most one client is moving or resizing. -/
def ClientModel.GoodState (s : ClientModel) : Prop :=
  (s.clients.map Prod.fst).Nodup ∧ s.mrCount ≤ 1

/-- A trace contains no raise call. -/
def raiseFree (l : List XCall) : Prop :=
  ∀ c ∈ l, c.is_raise = false

/-- A small concrete dispatcher environment: one focused client, no
children, no icons, no placeholder. -/
def sampleEnv : DispatchEnv :=
  { is_client := fun w => w == 1
    is_child := fun _ => false
    get_parent_of := fun w => w
    get_children_of := fun _ => []
    get_focused := 1
    find_layer := fun _ => 5
    visible_in_layer_order := [1]
    icons := []
    moveresize_placeholder := NoWindow
    set_input_focus_ok := fun _ => true
    is_visible_desktop := fun _ => true
    get_clients_of := fun _ => []
    get_mode := fun _ => .floating
    attributes := fun _ => ⟨0, 0, 1, 1⟩
    find_icon_from_client := fun _ => none
    fresh_window := fun k => 100 + k
    icon_width := 75
    icon_height := 20
    root_screen := ⟨0, 0, 100, 100⟩ }

/-- C1 / C2 / C10 / C3 witnesses use this model state: client `1` added
with autofocus on five desktops. -/
def oneClientModel : ClientModel :=
  (applyOp (ClientModel.initial 5) (.add_client 1 (1, 1) (1, 1) true)).1

/-- C3 / C4 witnesses use this state: client `1` moving. -/
def movingModel : ClientModel :=
  (applyOp oneClientModel (.start_moving 1)).1

/-- C4 witness state: client `1` resizing. -/
def resizingModel : ClientModel :=
  (applyOp oneClientModel (.start_resizing 1)).1

/-- C5 witness state: client `1` with child `2`. -/
def parentChildModel : ClientModel :=
  (applyOp oneClientModel (.add_child 1 2)).1

/- ------------------------------------------------------------------ -/
/- Theorems.                                                           -/
/- ------------------------------------------------------------------ -/

/-- C1: the claim states that `XModel::has_effect(w, e)` tests
`(bits & e) != 0`.  The code instead parses as `bits & (e != 0)`, i.e. it
only ever tests the lowest stored bit: for a window whose stored bit set
is exactly `EXPECT_UNMAP`, the stored bits AND `EXPECT_UNMAP` are nonzero
yet `has_effect` returns `false` (and with only `EXPECT_MAP` stored it
returns `true` for the unrelated `EXPECT_UNMAP` query).  The
no-stored-entry half of the claim does hold. -/
theorem C1_has_effect_precedence_divergence :
    (XModel.set_effect {} 1 EXPECT_UNMAP).has_effect 1 EXPECT_UNMAP = false ∧
    ((XModel.set_effect {} 1 EXPECT_UNMAP).effectsEntry 1).getD 0 &&& EXPECT_UNMAP ≠ 0 ∧
    (XModel.set_effect {} 1 EXPECT_MAP).has_effect 1 EXPECT_UNMAP = true ∧
    ((XModel.set_effect {} 1 EXPECT_MAP).effectsEntry 1).getD 0 &&& EXPECT_UNMAP = 0 ∧
    ({} : XModel).has_effect 1 EXPECT_UNMAP = false := by
  decide

/-- C2: the claim states that `clear_effect` removes the flag (AND-NOT).
The code ORs the flag in instead, so `set_effect` followed by
`clear_effect` leaves the stored bits AND the flag nonzero, and
`clear_effect` on a window without the flag adds it. -/
theorem C2_clear_effect_divergence :
    (((XModel.set_effect {} 1 EXPECT_MAP).clear_effect 1 EXPECT_MAP).effectsEntry 1).getD 0
        &&& EXPECT_MAP ≠ 0 ∧
    (XModel.clear_effect {} 1 EXPECT_UNMAP).effectsEntry 1 = some EXPECT_UNMAP ∧
    ((XModel.set_effect {} 1 EXPECT_MAP).clear_effect 1 EXPECT_MAP)
        = XModel.set_effect (XModel.set_effect {} 1 EXPECT_MAP) 1 EXPECT_MAP := by
  decide

/-- C10: while a move or resize is in progress, `XModel::update_pointer`
returns the difference from the previously stored pointer position and
stores the new one; otherwise it returns `(0, 0)` and leaves the state
unchanged. -/
theorem C10_update_pointer_spec (s : XModel) (x y : Int) :
    (s.m_moveresize.isSome = true →
      s.update_pointer x y =
        ((x - s.m_pointer.1, y - s.m_pointer.2), { s with m_pointer := (x, y) })) ∧
    (s.m_moveresize = none → s.update_pointer x y = ((0, 0), s)) := by
  cases h : s.m_moveresize <;>
    simp [XModel.update_pointer, h]

/-- Witness for C10 at a concrete in-progress state and a concrete idle
state. -/
theorem C10_update_pointer_witness :
    (⟨[], some ⟨.MR_MOVE, 2, 1⟩, (3, 4)⟩ : XModel).update_pointer 10 20
      = ((7, 16), ⟨[], some ⟨.MR_MOVE, 2, 1⟩, (10, 20)⟩) ∧
    ({ m_moveresize := none } : XModel).update_pointer 10 20
      = ((0, 0), { m_moveresize := none }) := by
  constructor
  · exact ((C10_update_pointer_spec ⟨[], some ⟨.MR_MOVE, 2, 1⟩, (3, 4)⟩ 10 20).1
      rfl).trans (by decide)
  · exact (C10_update_pointer_spec { m_moveresize := none } 10 20).2 rfl

/-- A state with the same client list inherits the invariant. -/
theorem goodState_of_clients_eq {s t : ClientModel} (h : s.GoodState)
    (he : t.clients = s.clients) : t.GoodState := by
  unfold ClientModel.GoodState ClientModel.mrCount at *
  rw [he]
  exact h

/-- `updateClient` preserves the key list. -/
theorem keys_updateClient (s : ClientModel) (w : Window)
    (f : ClientData → ClientData) :
    (s.updateClient w f).clients.map Prod.fst = s.clients.map Prod.fst := by
  simp only [ClientModel.updateClient, List.map_map]
  apply List.map_congr_left
  intro p _
  by_cases h : p.1 == w <;> simp [Function.comp, h]

/-- The moving/resizing count after an in-place update, as a `countP` over
the original list. -/
theorem mrCount_updateClient (s : ClientModel) (w : Window)
    (f : ClientData → ClientData) :
    (s.updateClient w f).mrCount
      = s.clients.countP (fun p =>
          if p.1 == w then (f p.2).desktop.isMR else p.2.desktop.isMR) := by
  unfold ClientModel.mrCount ClientModel.updateClient
  rw [List.countP_map]
  apply List.countP_congr
  intro p _
  by_cases h : p.1 == w <;> simp [Function.comp, h]

/-- With unique keys, at most one entry has key `w`. -/
theorem countP_key_le_one {l : List (Window × ClientData)}
    (h : (l.map Prod.fst).Nodup) (w : Window) :
    l.countP (fun p => p.1 == w) ≤ 1 := by
  have hc : l.countP (fun p => p.1 == w) = (l.map Prod.fst).count w := by
    rw [List.count, List.countP_map]
    rfl
  rw [hc]
  exact List.nodup_iff_count_le_one.mp h w

/-- Updates that land outside the moving/resizing desktops cannot increase
the moving/resizing count. -/
theorem mrCount_update_le_of_not_mr (s : ClientModel) (w : Window)
    (f : ClientData → ClientData) (hf : ∀ cd, (f cd).desktop.isMR = false) :
    (s.updateClient w f).mrCount ≤ s.mrCount := by
  rw [mrCount_updateClient]
  unfold ClientModel.mrCount
  apply List.countP_mono_left
  intro p _ hp
  by_cases h : p.1 == w
  · rw [if_pos h, hf] at hp
    exact absurd hp (by simp)
  · rwa [if_neg h] at hp

/-- When nothing is moving or resizing, an in-place update creates at most
one moving/resizing client. -/
theorem mrCount_update_le_one_of_zero (s : ClientModel) (w : Window)
    (f : ClientData → ClientData) (h0 : s.mrCount = 0)
    (hnd : (s.clients.map Prod.fst).Nodup) :
    (s.updateClient w f).mrCount ≤ 1 := by
  rw [mrCount_updateClient]
  have hz : ∀ p ∈ s.clients, ¬(p.2.desktop.isMR = true) :=
    List.countP_eq_zero.mp h0
  calc s.clients.countP (fun p =>
        if p.1 == w then (f p.2).desktop.isMR else p.2.desktop.isMR)
      ≤ s.clients.countP (fun p => p.1 == w) := by
        apply List.countP_mono_left
        intro p hp hpred
        by_cases h : p.1 == w
        · exact h
        · rw [if_neg h] at hpred
          exact absurd hpred (hz p hp)
    _ ≤ 1 := countP_key_le_one hnd w

/-- Updating the unique entry of a client that is already moving or
resizing cannot increase the moving/resizing count. -/
theorem mrCount_update_le_of_found_mr (s : ClientModel) (w : Window)
    (f : ClientData → ClientData) (cd : ClientData)
    (hnd : (s.clients.map Prod.fst).Nodup)
    (hfind : s.findClient w = some cd) (hmr : cd.desktop.isMR = true) :
    (s.updateClient w f).mrCount ≤ s.mrCount := by
  obtain ⟨pr, hprf, hprv⟩ :
      ∃ pr, s.clients.find? (fun p => p.1 == w) = some pr ∧ pr.2 = cd := by
    unfold ClientModel.findClient at hfind
    cases hp : s.clients.find? (fun p => p.1 == w) with
    | none => rw [hp] at hfind; simp at hfind
    | some pr =>
      rw [hp] at hfind
      simp at hfind
      exact ⟨pr, rfl, hfind⟩
  have hprmem : pr ∈ s.clients := List.mem_of_find?_eq_some hprf
  have hprkey : pr.1 = w := by
    have hpk := List.find?_some hprf
    simpa using hpk
  rw [mrCount_updateClient]
  unfold ClientModel.mrCount
  apply List.countP_mono_left
  intro p hp hpred
  by_cases h : p.1 == w
  · have hpeq : p = pr :=
      List.inj_on_of_nodup_map hnd hp hprmem (by rw [eq_of_beq h, hprkey])
    rw [hpeq, hprv]
    exact hmr
  · rwa [if_neg h] at hpred

/-- Updates that keep each client's desktop keep the count. -/
theorem mrCount_update_eq_of_desktop_preserved (s : ClientModel) (w : Window)
    (f : ClientData → ClientData) (hf : ∀ cd, (f cd).desktop = cd.desktop) :
    (s.updateClient w f).mrCount = s.mrCount := by
  rw [mrCount_updateClient]
  unfold ClientModel.mrCount
  apply List.countP_congr
  intro p _
  by_cases h : p.1 == w <;> simp [h, hf]

/-- `GoodState` after a non-moving/resizing in-place update, stated for
any state sharing the updated client list. -/
theorem goodState_updateClient_not_mr {s t : ClientModel} (w : Window)
    (f : ClientData → ClientData) (h : s.GoodState)
    (hf : ∀ cd, (f cd).desktop.isMR = false)
    (he : t.clients = (s.updateClient w f).clients) : t.GoodState := by
  refine goodState_of_clients_eq ?_ he
  exact ⟨by rw [keys_updateClient]; exact h.1,
    le_trans (mrCount_update_le_of_not_mr s w f hf) h.2⟩

/-- `GoodState` after an in-place update starting from zero
moving/resizing clients, stated for any state sharing the updated client
list. -/
theorem goodState_updateClient_zero {s t : ClientModel} (w : Window)
    (f : ClientData → ClientData) (h : s.GoodState) (h0 : s.mrCount = 0)
    (he : t.clients = (s.updateClient w f).clients) : t.GoodState := by
  refine goodState_of_clients_eq ?_ he
  exact ⟨by rw [keys_updateClient]; exact h.1,
    mrCount_update_le_one_of_zero s w f h0 h.1⟩

/-- `GoodState` after updating a client already moving or resizing,
stated for any state sharing the updated client list. -/
theorem goodState_updateClient_found_mr {s t : ClientModel} (w : Window)
    (f : ClientData → ClientData) (cd : ClientData) (h : s.GoodState)
    (hfind : s.findClient w = some cd) (hmr : cd.desktop.isMR = true)
    (he : t.clients = (s.updateClient w f).clients) : t.GoodState := by
  refine goodState_of_clients_eq ?_ he
  exact ⟨by rw [keys_updateClient]; exact h.1,
    le_trans (mrCount_update_le_of_found_mr s w f cd h.1 hfind hmr) h.2⟩

/-- `GoodState` after a desktop-preserving in-place update, stated for
any state sharing the updated client list. -/
theorem goodState_updateClient_desktop_preserved {s t : ClientModel}
    (w : Window) (f : ClientData → ClientData) (h : s.GoodState)
    (hf : ∀ cd, (f cd).desktop = cd.desktop)
    (he : t.clients = (s.updateClient w f).clients) : t.GoodState := by
  refine goodState_of_clients_eq ?_ he
  exact ⟨by rw [keys_updateClient]; exact h.1,
    by rw [mrCount_update_eq_of_desktop_preserved s w f hf]; exact h.2⟩

/-- `GoodState` for any state whose client list is a filtering of a good
state's. -/
theorem goodState_of_clients_filter {s t : ClientModel} (h : s.GoodState)
    (p : Window × ClientData → Bool)
    (he : t.clients = s.clients.filter p) : t.GoodState := by
  constructor
  · rw [he]
    exact h.1.sublist (List.Sublist.map Prod.fst (List.filter_sublist s.clients))
  · unfold ClientModel.mrCount
    rw [he]
    exact le_trans (List.Sublist.countP_le _ (List.filter_sublist s.clients)) h.2

/-- The initial model satisfies the invariant. -/
theorem goodState_initial (n : Nat) : (ClientModel.initial n).GoodState := by
  constructor <;> simp [ClientModel.initial, ClientModel.mrCount]

/-- Appending a fresh non-moving/resizing client preserves the invariant. -/
theorem goodState_append_not_mr {s t : ClientModel} (h : s.GoodState)
    (w : Window) (cd : ClientData) (hmr : cd.desktop.isMR = false)
    (hnotin : s.clients.find? (fun p => p.1 == w) = none)
    (he : t.clients = s.clients ++ [(w, cd)]) : t.GoodState := by
  constructor
  · rw [he, List.map_append, List.nodup_append]
    refine ⟨h.1, List.nodup_singleton w, ?_⟩
    intro a ha hb
    simp only [List.map_cons, List.map_nil, List.mem_singleton] at hb
    subst hb
    obtain ⟨p, hp, hpw⟩ := List.mem_map.mp ha
    exact absurd (by simp [hpw] : (p.1 == a) = true)
      (by simpa using List.find?_eq_none.mp hnotin p hp)
  · unfold ClientModel.mrCount
    rw [he, List.countP_append]
    have : List.countP (fun p => p.2.desktop.isMR) [(w, cd)] = 0 := by
      simp [List.countP_cons, hmr]
    rw [this]
    simpa using h.2

/-- Every public operation preserves the invariant. -/
theorem goodState_applyOp (s : ClientModel) (op : Op) (h : s.GoodState) :
    (applyOp s op).1.GoodState := by
  cases op with
  | add_client w loc sz af =>
    simp only [applyOp, ClientModel.add_client]
    split
    · exact h
    · next hg =>
      have hnc : s.clients.find? (fun p => p.1 == w) = none := by
        simp only [Bool.or_eq_true, not_or] at hg
        have h1 := hg.1.1
        unfold ClientModel.is_client at h1
        cases hfind : s.clients.find? (fun p => p.1 == w) with
        | none => rfl
        | some pr => rw [hfind] at h1; simp at h1
      split <;>
        exact goodState_append_not_mr h w
          { desktop := .user s.current, prevDesktop := .user s.current
            layer := DEF_LAYER, location := loc, size := sz
            autofocus := af, mapped := true } rfl hnc rfl
  | remove_client w =>
    cases hfind : s.findClient w with
    | none => simp only [applyOp, ClientModel.remove_client, hfind]; exact h
    | some cd =>
      simp only [applyOp, ClientModel.remove_client, hfind]
      exact goodState_of_clients_filter h (fun p => p.1 != w) rfl
  | add_child p c =>
    cases hfind : s.findClient p with
    | none => simp only [applyOp, ClientModel.add_child, hfind]; exact h
    | some cd =>
      simp only [applyOp, ClientModel.add_child, hfind]
      split
      · exact h
      · split <;> exact goodState_of_clients_eq h rfl
  | remove_child c r =>
    cases hpar : s.parentOf c with
    | none => simp only [applyOp, ClientModel.remove_child, hpar]; exact h
    | some p =>
      simp only [applyOp, ClientModel.remove_child, hpar]
      exact goodState_of_clients_eq h rfl
  | focusOn w =>
    simp only [applyOp, ClientModel.focusOn]
    split
    · exact goodState_of_clients_eq h rfl
    · exact h
  | unfocus =>
    cases hf : s.focused with
    | none => simp only [applyOp, ClientModel.unfocus, hf]; exact h
    | some f =>
      simp only [applyOp, ClientModel.unfocus, hf]
      exact goodState_of_clients_eq h rfl
  | iconify w =>
    cases hfind : s.findClient w with
    | none => simp only [applyOp, ClientModel.iconify, hfind]; exact h
    | some cd =>
      simp only [applyOp, ClientModel.iconify, hfind]
      split
      · exact goodState_updateClient_not_mr w
          (fun c => desktopTransition c .icon) h (fun c => rfl) rfl
      · exact h
  | deiconify w =>
    cases hfind : s.findClient w with
    | none => simp only [applyOp, ClientModel.deiconify, hfind]; exact h
    | some cd =>
      simp only [applyOp, ClientModel.deiconify, hfind]
      split
      · have hnm : ∀ c : ClientData,
            (desktopTransition c
              (if cd.prevDesktop == Desktop.all then Desktop.all
               else Desktop.user s.current)).desktop.isMR = false := by
          intro c
          unfold desktopTransition
          split <;> rfl
        split <;>
          exact goodState_updateClient_not_mr w
            (fun c => desktopTransition c
              (if cd.prevDesktop == Desktop.all then Desktop.all
               else Desktop.user s.current)) h hnm rfl
      · exact h
  | start_moving w =>
    cases hfind : s.findClient w with
    | none => simp only [applyOp, ClientModel.start_moving, hfind]; exact h
    | some cd =>
      simp only [applyOp, ClientModel.start_moving, hfind]
      split
      · next hc =>
        have h0 : s.mrCount = 0 := by
          simp only [Bool.and_eq_true, beq_iff_eq] at hc
          exact hc.2
        exact goodState_updateClient_zero w
          (fun c => desktopTransition c .moving) h h0 rfl
      · exact h
  | start_resizing w =>
    cases hfind : s.findClient w with
    | none => simp only [applyOp, ClientModel.start_resizing, hfind]; exact h
    | some cd =>
      simp only [applyOp, ClientModel.start_resizing, hfind]
      split
      · next hc =>
        have h0 : s.mrCount = 0 := by
          simp only [Bool.and_eq_true, beq_iff_eq] at hc
          exact hc.2
        exact goodState_updateClient_zero w
          (fun c => desktopTransition c .resizing) h h0 rfl
      · exact h
  | stop_moving w loc =>
    cases hfind : s.findClient w with
    | none => simp only [applyOp, ClientModel.stop_moving, hfind]; exact h
    | some cd =>
      simp only [applyOp, ClientModel.stop_moving, hfind]
      split
      · next hmov =>
        have hmr : cd.desktop.isMR = true := by
          unfold Desktop.isMR
          rw [hmov]
          rfl
        exact goodState_updateClient_found_mr w
          (fun c => { desktopTransition c c.prevDesktop with location := loc })
          cd h hfind hmr rfl
      · exact h
  | stop_resizing w sz =>
    cases hfind : s.findClient w with
    | none => simp only [applyOp, ClientModel.stop_resizing, hfind]; exact h
    | some cd =>
      simp only [applyOp, ClientModel.stop_resizing, hfind]
      split
      · next hres =>
        have hmr : cd.desktop.isMR = true := by
          unfold Desktop.isMR
          rw [hres]
          simp
        exact goodState_updateClient_found_mr w
          (fun c =>
            if 0 < sz.1 ∧ 0 < sz.2 then
              { desktopTransition c c.prevDesktop with size := sz }
            else desktopTransition c c.prevDesktop)
          cd h hfind hmr rfl
      · exact h
  | next_desktop =>
    simp only [applyOp, ClientModel.next_desktop]
    split
    · exact goodState_of_clients_eq h rfl
    · exact h
  | prev_desktop =>
    simp only [applyOp, ClientModel.prev_desktop]
    split
    · exact goodState_of_clients_eq h rfl
    · exact h
  | up_layer w =>
    cases hfind : s.findClient w with
    | none => simp only [applyOp, ClientModel.up_layer, hfind]; exact h
    | some cd =>
      simp only [applyOp, ClientModel.up_layer, hfind]
      split
      · exact goodState_updateClient_desktop_preserved w
          (fun c => { c with layer := c.layer + 1 }) h (fun c => rfl) rfl
      · exact h
  | down_layer w =>
    cases hfind : s.findClient w with
    | none => simp only [applyOp, ClientModel.down_layer, hfind]; exact h
    | some cd =>
      simp only [applyOp, ClientModel.down_layer, hfind]
      split
      · exact goodState_updateClient_desktop_preserved w
          (fun c => { c with layer := c.layer - 1 }) h (fun c => rfl) rfl
      · exact h
  | set_layer w l =>
    cases hfind : s.findClient w with
    | none => simp only [applyOp, ClientModel.set_layer, hfind]; exact h
    | some cd =>
      simp only [applyOp, ClientModel.set_layer, hfind]
      split
      · exact goodState_updateClient_desktop_preserved w
          (fun c => { c with layer := clampLayer l }) h (fun c => rfl) rfl
      · exact h
  | toggle_stick w =>
    cases hfind : s.findClient w with
    | none => simp only [applyOp, ClientModel.toggle_stick, hfind]; exact h
    | some cd =>
      simp only [applyOp, ClientModel.toggle_stick, hfind]
      split
      · exact goodState_updateClient_not_mr w
          (fun c => desktopTransition c .all) h (fun c => rfl) rfl
      · exact goodState_updateClient_not_mr w
          (fun c => desktopTransition c (.user s.current)) h (fun c => rfl) rfl
      · exact h

/-- Reachable states satisfy the invariant. -/
theorem reachable_goodState {s : ClientModel} (h : Reachable s) :
    s.GoodState := by
  induction h with
  | init n => exact goodState_initial n
  | step s op _ ih => exact goodState_applyOp s op ih

/-- C3: at most one client is on the moving or resizing desktop in every
reachable state; while a move/resize is in progress, `start_moving` and
`start_resizing` of any client leave the state unchanged and emit no
events, `next_desktop` and `prev_desktop` are event-free no-ops, and the
`XModel` rejects `enter_move`/`enter_resize` while its move/resize record
is occupied. -/
theorem C3_move_resize_exclusive :
    (∀ s : ClientModel, Reachable s → s.mrCount ≤ 1) ∧
    (∀ (s : ClientModel) (w : Window), 1 ≤ s.mrCount →
      s.start_moving w = (s, []) ∧ s.start_resizing w = (s, []) ∧
      s.next_desktop = (s, []) ∧ s.prev_desktop = (s, [])) ∧
    (∀ (xs : XModel) (c p : Window) (pt : Int × Int),
      xs.m_moveresize.isSome = true →
      xs.enter_move c p pt = xs ∧ xs.enter_resize c p pt = xs) := by
  refine ⟨fun s hs => (reachable_goodState hs).2,
    fun s w h1 => ?_, fun xs c p pt hs => ?_⟩
  · have hne : (s.mrCount == 0) = false := by
      simp only [beq_eq_false_iff_ne]
      omega
    refine ⟨?_, ?_, ?_, ?_⟩
    · unfold ClientModel.start_moving
      cases hfind : s.findClient w with
      | none => rfl
      | some cd => simp [hne]
    · unfold ClientModel.start_resizing
      cases hfind : s.findClient w with
      | none => rfl
      | some cd => simp [hne]
    · unfold ClientModel.next_desktop
      simp [hne]
    · unfold ClientModel.prev_desktop
      simp [hne]
  · constructor <;> simp [XModel.enter_move, XModel.enter_resize, hs]

/-- Witness for C3 at the reachable state with client 1 moving. -/
theorem C3_move_resize_exclusive_witness :
    movingModel.mrCount ≤ 1 ∧
    movingModel.start_moving 2 = (movingModel, []) ∧
    movingModel.next_desktop = (movingModel, []) ∧
    (⟨[], some ⟨.MR_MOVE, 9, 8⟩, (0, 0)⟩ : XModel).enter_move 1 2 (3, 4)
      = ⟨[], some ⟨.MR_MOVE, 9, 8⟩, (0, 0)⟩ := by
  refine ⟨?_, ?_, ?_, ?_⟩
  · exact C3_move_resize_exclusive.1 movingModel
      (Reachable.step oneClientModel (.start_moving 1)
        (Reachable.step (ClientModel.initial 5)
          (.add_client 1 (1, 1) (1, 1) true) (Reachable.init 5)))
  · exact (C3_move_resize_exclusive.2.1 movingModel 2 (by decide)).1
  · exact (C3_move_resize_exclusive.2.1 movingModel 2 (by decide)).2.2.1
  · exact (C3_move_resize_exclusive.2.2 ⟨[], some ⟨.MR_MOVE, 9, 8⟩, (0, 0)⟩
      1 2 (3, 4) rfl).1

/-- C4: stopping a resize with a non-positive width or height emits no
size event, but still restores the client to its remembered user desktop
and, when the client autofocuses, refocuses it, in that order. -/
theorem C4_stop_resizing_invalid_size (s : ClientModel) (w : Window)
    (cd : ClientData) (d : Nat) (sz : Int × Int)
    (hfind : s.findClient w = some cd)
    (hdesk : cd.desktop = .resizing)
    (hprev : cd.prevDesktop = .user d)
    (hfoc : s.focused = none)
    (hbad : sz.1 ≤ 0 ∨ sz.2 ≤ 0) :
    (s.stop_resizing w sz).2 =
      [Change.clientDesktop w (some .resizing) (.user d)]
        ++ (if cd.autofocus then [Change.focus none (some w)] else []) ∧
    ∀ e ∈ (s.stop_resizing w sz).2, e.is_size_change = false := by
  have hvalid : ¬(0 < sz.1 ∧ 0 < sz.2) := by
    rcases hbad with hb | hb
    · exact fun hc => absurd hc.1 (by omega)
    · exact fun hc => absurd hc.2 (by omega)
  have hres : cd.desktop.is_resizing_desktop = true := by
    rw [hdesk]
    rfl
  constructor
  · unfold ClientModel.stop_resizing
    simp [hfind, hres, hvalid, hfoc, hprev]
  · intro e he
    cases haf : cd.autofocus with
    | true =>
      simp [ClientModel.stop_resizing, hfind, hres, hvalid, hfoc, haf] at he
      rcases he with rfl | rfl <;> rfl
    | false =>
      simp [ClientModel.stop_resizing, hfind, hres, hvalid, hfoc, haf] at he
      subst he
      rfl

/-- Witness for C4 at the reachable state with client 1 resizing. -/
theorem C4_stop_resizing_invalid_size_witness :
    (resizingModel.stop_resizing 1 (0, 0)).2 =
      [Change.clientDesktop 1 (some .resizing) (.user 0),
       Change.focus none (some 1)] := by
  have h := C4_stop_resizing_invalid_size resizingModel 1
    ⟨.resizing, .user 0, DEF_LAYER, (1, 1), (1, 1), true, true⟩ 0 (0, 0)
    (by decide) (by decide) (by decide) (by decide) (Or.inl (by decide))
  exact h.1.trans (by decide)

/-- A window that is not a client has no client record. -/
theorem findClient_eq_none_of_not_client {s : ClientModel} {x : Window}
    (hc : s.is_client x = false) : s.findClient x = none := by
  unfold ClientModel.is_client at hc
  unfold ClientModel.findClient
  cases hfind : s.clients.find? (fun p => p.1 == x) with
  | none => rfl
  | some pr => rw [hfind] at hc; simp at hc

/-- A window that is not a child has no parent. -/
theorem parentOf_eq_none_of_not_child {s : ClientModel} {x : Window}
    (hch : s.is_child x = false) : s.parentOf x = none := by
  unfold ClientModel.is_child at hch
  unfold ClientModel.parentOf
  cases hfind : s.childPairs.find? (fun q => q.2 == x) with
  | none => rfl
  | some pr =>
    exfalso
    have hmem := List.mem_of_find?_eq_some hfind
    have hpq := List.find?_some hfind
    have hany : s.childPairs.any (fun q => q.2 == x) = true :=
      List.any_eq_true.mpr ⟨pr, hmem, hpq⟩
    rw [hch] at hany
    exact Bool.false_ne_true hany

/-- A window that is neither a client nor a child is not focusable. -/
theorem focusable_false_of_unknown (s : ClientModel) (x : Window)
    (hc : s.is_client x = false) (hch : s.is_child x = false) :
    s.focusable x = false := by
  unfold ClientModel.focusable ClientModel.focusableOn ClientModel.clientFocusableOn
  rw [findClient_eq_none_of_not_client hc, parentOf_eq_none_of_not_child hch]
  rfl

/-- Filtering out key `w` removes every record found under key `w`. -/
theorem find?_filter_ne_eq_none (l : List (Window × ClientData)) (w : Window) :
    (l.filter (fun p => p.1 != w)).find? (fun p => p.1 == w) = none := by
  rw [List.find?_eq_none]
  intro p hp
  have h2 := (List.mem_filter.mp hp).2
  simp at h2 ⊢
  exact h2

/-- Membership in `childrenOf` comes from a parent/child pair. -/
theorem exists_pair_of_mem_childrenOf {s : ClientModel} {w c : Window}
    (hc : c ∈ s.childrenOf w) :
    ∃ q ∈ s.childPairs, q.1 = w ∧ q.2 = c := by
  unfold ClientModel.childrenOf at hc
  obtain ⟨q, hq, hq2⟩ := List.mem_map.mp hc
  have hmem := (List.mem_filter.mp hq).1
  have hkey := (List.mem_filter.mp hq).2
  exact ⟨q, hmem, by simpa using hkey, hq2⟩

/-- C5: `remove_client` emits, in order, the focus loss (exactly when the
client or one of its children is focused), one child-remove event per
child in insertion order, and one destroy event carrying the last desktop
and layer; afterwards the client and its children are out of the model,
out of the parent/child relation, unfocusable and unfocused. -/
theorem C5_remove_client_events (s : ClientModel) (w : Window)
    (cd : ClientData)
    (hfind : s.findClient w = some cd)
    (hsnd : (s.childPairs.map Prod.snd).Nodup)
    (hwnc : s.is_child w = false)
    (hkids : ∀ c ∈ s.childrenOf w, s.is_client c = false) :
    (s.remove_client w).2 =
      (if s.focusHeldBy w then [Change.focus s.focused none] else [])
        ++ (s.childrenOf w).map (fun c => Change.childRemove w c)
        ++ [Change.destroy w cd.desktop cd.layer] ∧
    (s.remove_client w).1.is_client w = false ∧
    (s.remove_client w).1.childrenOf w = [] ∧
    (∀ c ∈ s.childrenOf w, (s.remove_client w).1.is_child c = false) ∧
    (s.remove_client w).1.focusable w = false ∧
    (∀ c ∈ s.childrenOf w, (s.remove_client w).1.focusable c = false) ∧
    (s.remove_client w).1.focused ≠ some w ∧
    (∀ c ∈ s.childrenOf w, (s.remove_client w).1.focused ≠ some c) := by
  have hclientsfind :
      ((s.clients.filter (fun p => p.1 != w)).find? (fun p => p.1 == w))
        = none := find?_filter_ne_eq_none s.clients w
  have hisclient : (s.remove_client w).1.is_client w = false := by
    simp only [ClientModel.remove_client, hfind]
    unfold ClientModel.is_client
    rw [hclientsfind]
    rfl
  have hchildnil : (s.remove_client w).1.childrenOf w = [] := by
    simp only [ClientModel.remove_client, hfind]
    unfold ClientModel.childrenOf
    have hnil : (s.childPairs.filter (fun q => q.1 != w)).filter
        (fun q => q.1 == w) = [] := by
      rw [List.filter_eq_nil_iff]
      intro q hq
      have h2 := (List.mem_filter.mp hq).2
      simp at h2 ⊢
      exact h2
    simp only at hnil ⊢
    rw [hnil]
    rfl
  have hischild : ∀ c ∈ s.childrenOf w,
      (s.remove_client w).1.is_child c = false := by
    intro c hc
    obtain ⟨q0, hq0mem, hq0w, hq0c⟩ := exists_pair_of_mem_childrenOf hc
    simp only [ClientModel.remove_client, hfind]
    unfold ClientModel.is_child
    cases hany : (s.childPairs.filter (fun q => q.1 != w)).any
        (fun q => q.2 == c) with
    | false => rfl
    | true =>
      exfalso
      obtain ⟨q, hq, hq2⟩ := List.any_eq_true.mp hany
      have hqmem := (List.mem_filter.mp hq).1
      have hqne := (List.mem_filter.mp hq).2
      have hqc : q.2 = c := by simpa using hq2
      have : q = q0 :=
        List.inj_on_of_nodup_map hsnd hqmem hq0mem (by rw [hqc, hq0c])
      rw [this, hq0w] at hqne
      simp at hqne
  have hwnc' : (s.remove_client w).1.is_child w = false := by
    simp only [ClientModel.remove_client, hfind]
    unfold ClientModel.is_child
    cases hany : (s.childPairs.filter (fun q => q.1 != w)).any
        (fun q => q.2 == w) with
    | false => rfl
    | true =>
      exfalso
      obtain ⟨q, hq, hq2⟩ := List.any_eq_true.mp hany
      have hqmem := (List.mem_filter.mp hq).1
      unfold ClientModel.is_child at hwnc
      have : s.childPairs.any (fun q => q.2 == w) = true :=
        List.any_eq_true.mpr ⟨q, hqmem, hq2⟩
      rw [hwnc] at this
      exact Bool.false_ne_true this
  have hkidsnc : ∀ c ∈ s.childrenOf w,
      (s.remove_client w).1.is_client c = false := by
    intro c hc
    simp only [ClientModel.remove_client, hfind]
    unfold ClientModel.is_client
    have hnone : (s.clients.filter (fun p => p.1 != w)).find?
        (fun p => p.1 == c) = none := by
      rw [List.find?_eq_none]
      intro p hp
      have hpmem := (List.mem_filter.mp hp).1
      have hnc := findClient_eq_none_of_not_client (hkids c hc)
      unfold ClientModel.findClient at hnc
      cases hfp : s.clients.find? (fun p => p.1 == c) with
      | none => exact List.find?_eq_none.mp hfp p hpmem
      | some pr => rw [hfp] at hnc; simp at hnc
    rw [hnone]
    rfl
  have hfocusedok : (s.remove_client w).1.focused ≠ some w ∧
      (∀ c ∈ s.childrenOf w, (s.remove_client w).1.focused ≠ some c) := by
    simp only [ClientModel.remove_client, hfind]
    cases hlost : s.focusHeldBy w with
    | true => simp
    | false =>
      rw [if_neg (by simp : ¬(false = true))]
      unfold ClientModel.focusHeldBy at hlost
      cases hf : s.focused with
      | none => simp
      | some f =>
        rw [hf] at hlost
        simp only [Bool.or_eq_false_iff] at hlost
        constructor
        · intro hcon
          have : f = w := by injection hcon
          rw [this] at hlost
          simp at hlost
        · intro c hc hcon
          have hfc : f = c := by injection hcon
          have hmemkids : (s.childrenOf w).contains f = true := by
            rw [hfc]
            exact List.elem_eq_true_of_mem hc
          rw [hmemkids] at hlost
          simp at hlost
  refine ⟨?_, hisclient, hchildnil, hischild, ?_, ?_, hfocusedok.1, hfocusedok.2⟩
  · simp only [ClientModel.remove_client, hfind]
  · exact focusable_false_of_unknown _ w hisclient hwnc'
  · intro c hc
    exact focusable_false_of_unknown _ c (hkidsnc c hc) (hischild c hc)

/-- Witness for C5 at the state with client 1 owning child 2. -/
theorem C5_remove_client_events_witness :
    (parentChildModel.remove_client 1).2 =
      [Change.focus (some 2) none, Change.childRemove 1 2,
       Change.destroy 1 (.user 0) DEF_LAYER] ∧
    (parentChildModel.remove_client 1).1.is_client 1 = false ∧
    (parentChildModel.remove_client 1).1.is_child 2 = false := by
  have h := C5_remove_client_events parentChildModel 1
    ⟨.user 0, .user 0, DEF_LAYER, (1, 1), (1, 1), true, true⟩
    (by decide) (by decide) (by decide) (by decide)
  refine ⟨h.1.trans (by decide), h.2.1, h.2.2.2.1 2 (by decide)⟩

/-- C6: without an active move/resize, `next_desktop` and `prev_desktop`
step the current user desktop by plus or minus one wrapping modulo the
desktop count, and emit, in order: the focus loss (exactly when the
focused window's owning client becomes invisible), the current-desktop
event, then the focus restoration (exactly when the last focus holder
recorded for the target desktop is known and focusable there). -/
theorem C6_desktop_cycle (s : ClientModel) (h : s.mrCount = 0) :
    ((s.next_desktop).1.current = (s.current + 1) % s.numDesktops ∧
      (s.next_desktop).2 =
        (match s.focusLostBySwitch ((s.current + 1) % s.numDesktops) with
         | some f => [Change.focus (some f) none]
         | none => [])
          ++ [Change.currentDesktop (.user s.current)
                (.user ((s.current + 1) % s.numDesktops))]
          ++ (match s.focusRestoredBySwitch ((s.current + 1) % s.numDesktops) with
              | some r => [Change.focus none (some r)]
              | none => [])) ∧
    ((s.prev_desktop).1.current
        = (s.current + s.numDesktops - 1) % s.numDesktops ∧
      (s.prev_desktop).2 =
        (match s.focusLostBySwitch
            ((s.current + s.numDesktops - 1) % s.numDesktops) with
         | some f => [Change.focus (some f) none]
         | none => [])
          ++ [Change.currentDesktop (.user s.current)
                (.user ((s.current + s.numDesktops - 1) % s.numDesktops))]
          ++ (match s.focusRestoredBySwitch
              ((s.current + s.numDesktops - 1) % s.numDesktops) with
              | some r => [Change.focus none (some r)]
              | none => [])) := by
  refine ⟨⟨?_, ?_⟩, ⟨?_, ?_⟩⟩ <;>
    simp [ClientModel.next_desktop, ClientModel.prev_desktop,
      ClientModel.switch_to_desktop, h]

/-- Witness for C6: the S1/S3 scenario — with client 1 focused on desktop
0 of 5, `next_desktop` drops focus and moves to desktop 1; `prev_desktop`
returns to 0 and restores focus to client 1. -/
theorem C6_desktop_cycle_witness :
    (oneClientModel.next_desktop).2 =
      [Change.focus (some 1) none,
       Change.currentDesktop (.user 0) (.user 1)] ∧
    ((oneClientModel.next_desktop).1.prev_desktop).2 =
      [Change.currentDesktop (.user 1) (.user 0),
       Change.focus none (some 1)] := by
  constructor
  · exact ((C6_desktop_cycle oneClientModel (by decide)).1.2).trans (by decide)
  · exact ((C6_desktop_cycle (oneClientModel.next_desktop).1
      (by decide)).2.2).trans (by decide)

/-- C7: `up_layer` at `MAX_LAYER`, `down_layer` at `MIN_LAYER` and
`set_layer` at the current layer leave the state unchanged and emit
nothing; otherwise each emits exactly one layer event carrying the new
layer. -/
theorem C7_layer_boundaries (s : ClientModel) (w : Window) (cd : ClientData)
    (hfind : s.findClient w = some cd) :
    (cd.layer = MAX_LAYER → s.up_layer w = (s, [])) ∧
    (cd.layer = MIN_LAYER → s.down_layer w = (s, [])) ∧
    (∀ l : Nat, MIN_LAYER ≤ l → l ≤ MAX_LAYER →
      (l = cd.layer → s.set_layer w l = (s, [])) ∧
      (l ≠ cd.layer → (s.set_layer w l).2 = [Change.layer w l])) ∧
    (cd.layer < MAX_LAYER →
      (s.up_layer w).2 = [Change.layer w (cd.layer + 1)]) ∧
    (MIN_LAYER < cd.layer →
      (s.down_layer w).2 = [Change.layer w (cd.layer - 1)]) := by
  refine ⟨?_, ?_, ?_, ?_, ?_⟩
  · intro hL
    simp [ClientModel.up_layer, hfind, hL]
  · intro hL
    simp [ClientModel.down_layer, hfind, hL, MIN_LAYER]
  · intro l h1 h2
    have hcl : clampLayer l = l := by
      unfold clampLayer
      simp only [MIN_LAYER, MAX_LAYER] at h1 h2 ⊢
      omega
    constructor
    · intro he
      subst he
      simp [ClientModel.set_layer, hfind, hcl]
    · intro hne
      simp [ClientModel.set_layer, hfind, hcl, hne]
  · intro hlt
    simp [ClientModel.up_layer, hfind, hlt]
  · intro hlt
    simp [ClientModel.down_layer, hfind, hlt]

/-- Witness for C7: boundary no-ops at layers 10 and 1, a same-layer
no-op, and the single event emitted by `up_layer` from the default
layer. -/
theorem C7_layer_boundaries_witness :
    ((oneClientModel.set_layer 1 MAX_LAYER).1.up_layer 1
      = ((oneClientModel.set_layer 1 MAX_LAYER).1, [])) ∧
    ((oneClientModel.set_layer 1 MIN_LAYER).1.down_layer 1
      = ((oneClientModel.set_layer 1 MIN_LAYER).1, [])) ∧
    (oneClientModel.set_layer 1 DEF_LAYER = (oneClientModel, [])) ∧
    ((oneClientModel.up_layer 1).2 = [Change.layer 1 6]) := by
  refine ⟨?_, ?_, ?_, ?_⟩
  · exact (C7_layer_boundaries (oneClientModel.set_layer 1 MAX_LAYER).1 1
      ⟨.user 0, .user 0, MAX_LAYER, (1, 1), (1, 1), true, true⟩
      (by decide)).1 (by decide)
  · exact (C7_layer_boundaries (oneClientModel.set_layer 1 MIN_LAYER).1 1
      ⟨.user 0, .user 0, MIN_LAYER, (1, 1), (1, 1), true, true⟩
      (by decide)).2.1 (by decide)
  · exact ((C7_layer_boundaries oneClientModel 1
      ⟨.user 0, .user 0, DEF_LAYER, (1, 1), (1, 1), true, true⟩
      (by decide)).2.2.1 DEF_LAYER (by decide) (by decide)).1 (by decide)
  · exact ((C7_layer_boundaries oneClientModel 1
      ⟨.user 0, .user 0, DEF_LAYER, (1, 1), (1, 1), true, true⟩
      (by decide)).2.2.2.1 (by decide)).trans (by decide)

/-- C8: on every focus event the dispatcher grabs the mouse on the
previous holder exactly when it is a live client or child; for a non-null
next holder it calls `set_input_focus`, and exactly on failure it advances
the focus cycle forward and grabs the original target; the relayer flag is
set in every case. -/
theorem C8_handle_focus_change_spec (env : DispatchEnv) (prev next : Window) :
    (handle_focus_change env prev next).2 = true ∧
    (handle_focus_change env prev next).1 =
      (if env.is_client prev || env.is_child prev then [XCall.grab_mouse prev]
       else [])
        ++ (if next = NoWindow then [XCall.set_input_focus NoWindow]
            else if env.set_input_focus_ok next then
              [XCall.set_input_focus next, XCall.ungrab_mouse next]
            else
              [XCall.set_input_focus next, XCall.model_cycle_focus_forward,
               XCall.grab_mouse next]) := by
  refine ⟨rfl, ?_⟩
  unfold handle_focus_change
  by_cases hn : next = NoWindow
  · subst hn
    simp
  · by_cases hok : env.set_input_focus_ok next = true <;>
      simp [hn, bne_iff_ne, hok]

/-- The empty trace is raise-free. -/
theorem raiseFree_nil : raiseFree [] := by
  intro c hc
  exact absurd hc (List.not_mem_nil c)

/-- Prepending a non-raise call keeps a trace raise-free. -/
theorem raiseFree_cons {x : XCall} {t : List XCall} (hx : x.is_raise = false)
    (ht : raiseFree t) : raiseFree (x :: t) := by
  intro c hc
  rcases List.mem_cons.mp hc with rfl | h
  exacts [hx, ht c h]

/-- Concatenating raise-free traces is raise-free. -/
theorem raiseFree_append {a b : List XCall} (ha : raiseFree a)
    (hb : raiseFree b) : raiseFree (a ++ b) := by
  intro c hc
  rcases List.mem_append.mp hc with h | h
  exacts [ha c h, hb c h]

/-- A conditional between raise-free traces is raise-free. -/
theorem raiseFree_ite {c : Prop} [Decidable c] {a b : List XCall}
    (ha : raiseFree a) (hb : raiseFree b) :
    raiseFree (if c then a else b) := by
  split
  · exact ha
  · exact hb

/-- A flat map of raise-free traces is raise-free. -/
theorem raiseFree_flatMap {α : Type} (f : α → List XCall) (l : List α)
    (hf : ∀ x, raiseFree (f x)) : raiseFree (l.flatMap f) := by
  intro c hc
  simp only [List.mem_flatMap] at hc
  obtain ⟨x, _, hc⟩ := hc
  exact hf x c hc

/-- `map_all` issues no raise. -/
theorem raiseFree_map_all (ws : List Window) : raiseFree (map_all ws) :=
  raiseFree_flatMap _ ws
    (fun w => raiseFree_cons rfl (raiseFree_cons rfl raiseFree_nil))

/-- `unmap_unfocus_all` issues no raise. -/
theorem raiseFree_unmap_unfocus_all (ws : List Window) :
    raiseFree (unmap_unfocus_all ws) :=
  raiseFree_flatMap _ ws
    (fun w => raiseFree_cons rfl (raiseFree_cons rfl
      (raiseFree_cons rfl raiseFree_nil)))

/-- `register_new_icon` issues no raise. -/
theorem raiseFree_register_new_icon (env : DispatchEnv) (k : Nat)
    (client : Window) (b : Bool) :
    raiseFree (register_new_icon env k client b).1 := by
  unfold register_new_icon
  exact raiseFree_cons rfl (raiseFree_cons rfl (raiseFree_cons rfl
    (raiseFree_cons rfl (raiseFree_cons rfl (raiseFree_cons rfl
      (raiseFree_append
        (raiseFree_ite (raiseFree_cons rfl (raiseFree_cons rfl raiseFree_nil))
          raiseFree_nil)
        (raiseFree_cons rfl raiseFree_nil)))))))

/-- `create_placeholder` issues no raise. -/
theorem raiseFree_create_placeholder (env : DispatchEnv) (k : Nat)
    (client : Window) : raiseFree (create_placeholder env k client).1 := by
  unfold create_placeholder
  exact raiseFree_cons rfl (raiseFree_cons rfl (raiseFree_cons rfl
    (raiseFree_cons rfl (raiseFree_cons rfl raiseFree_nil))))

/-- The dispatcher-side `start_moving` issues no raise. -/
theorem raiseFree_start_moving_disp (env : DispatchEnv) (k : Nat)
    (client : Window) : raiseFree (start_moving_disp env k client).1 := by
  unfold start_moving_disp
  exact raiseFree_append (raiseFree_create_placeholder env k client)
    (raiseFree_cons rfl (raiseFree_cons rfl (raiseFree_cons rfl
      (raiseFree_cons rfl raiseFree_nil))))

/-- The dispatcher-side `start_resizing` issues no raise. -/
theorem raiseFree_start_resizing_disp (env : DispatchEnv) (k : Nat)
    (client : Window) : raiseFree (start_resizing_disp env k client).1 := by
  unfold start_resizing_disp
  exact raiseFree_append (raiseFree_create_placeholder env k client)
    (raiseFree_cons rfl (raiseFree_cons rfl (raiseFree_cons rfl
      (raiseFree_cons rfl raiseFree_nil))))

/-- The new-client desktop handler issues no raise. -/
theorem raiseFree_new_client (env : DispatchEnv) (k : Nat) (next : Desktop)
    (client : Window) :
    raiseFree (handle_new_client_desktop_change env k next client).calls := by
  cases next with
  | user i => exact raiseFree_nil
  | icon => exact raiseFree_register_new_icon env k client true
  | all => exact raiseFree_cons rfl (raiseFree_register_new_icon env k client true)
  | moving => exact raiseFree_cons rfl (raiseFree_register_new_icon env k client true)
  | resizing => exact raiseFree_cons rfl (raiseFree_register_new_icon env k client true)

/-- The user-desktop transition handler issues no raise. -/
theorem raiseFree_from_user (env : DispatchEnv) (k : Nat) (old new_ : Desktop)
    (client : Window) :
    raiseFree
      (handle_client_change_from_user_desktop env k old new_ client).calls := by
  unfold handle_client_change_from_user_desktop
  cases new_ with
  | user i =>
    dsimp only
    split
    · exact raiseFree_append
        (raiseFree_cons rfl (raiseFree_cons rfl (raiseFree_cons rfl raiseFree_nil)))
        (raiseFree_unmap_unfocus_all _)
    · split
      · exact raiseFree_append
          (raiseFree_cons rfl (raiseFree_cons rfl (raiseFree_cons rfl raiseFree_nil)))
          (raiseFree_map_all _)
      · split
        · exact raiseFree_nil
        · exact raiseFree_cons rfl raiseFree_nil
  | all =>
    dsimp only
    split
    · exact raiseFree_append
        (raiseFree_cons rfl (raiseFree_cons rfl (raiseFree_cons rfl raiseFree_nil)))
        (raiseFree_map_all _)
    · exact raiseFree_nil
  | icon =>
    dsimp only
    exact raiseFree_append
      (raiseFree_ite (raiseFree_unmap_unfocus_all _) raiseFree_nil)
      (raiseFree_register_new_icon env k client _)
  | moving =>
    dsimp only
    exact raiseFree_append (raiseFree_unmap_unfocus_all _)
      (raiseFree_start_moving_disp env k client)
  | resizing =>
    dsimp only
    exact raiseFree_append (raiseFree_unmap_unfocus_all _)
      (raiseFree_start_resizing_disp env k client)

/-- The all-desktop transition handler issues no raise. -/
theorem raiseFree_from_all (env : DispatchEnv) (k : Nat) (new_ : Desktop)
    (client : Window) :
    raiseFree
      (handle_client_change_from_all_desktop env k new_ client).calls := by
  unfold handle_client_change_from_all_desktop
  cases new_ with
  | user i =>
    dsimp only
    split
    · exact raiseFree_append
        (raiseFree_cons rfl (raiseFree_cons rfl (raiseFree_cons rfl raiseFree_nil)))
        (raiseFree_unmap_unfocus_all _)
    · exact raiseFree_nil
  | all => exact raiseFree_nil
  | icon =>
    exact raiseFree_append (raiseFree_unmap_unfocus_all _)
      (raiseFree_register_new_icon env k client true)
  | moving =>
    exact raiseFree_append (raiseFree_unmap_unfocus_all _)
      (raiseFree_start_moving_disp env k client)
  | resizing =>
    exact raiseFree_append (raiseFree_unmap_unfocus_all _)
      (raiseFree_start_resizing_disp env k client)

/-- The icon-desktop transition handler issues no raise. -/
theorem raiseFree_from_icon (env : DispatchEnv) (k : Nat) (new_ : Desktop)
    (client : Window) :
    raiseFree
      (handle_client_change_from_icon_desktop env k new_ client).calls := by
  unfold handle_client_change_from_icon_desktop
  split
  · split
    · exact raiseFree_cons rfl raiseFree_nil
    · exact raiseFree_cons rfl (raiseFree_cons rfl
        (raiseFree_ite
          (raiseFree_append
            (raiseFree_cons rfl (raiseFree_cons rfl (raiseFree_cons rfl raiseFree_nil)))
            (raiseFree_map_all _))
          raiseFree_nil))
  · exact raiseFree_nil

/-- The moving-desktop transition handler issues no raise. -/
theorem raiseFree_from_moving (env : DispatchEnv) (k : Nat) (new_ : Desktop)
    (client : Window) :
    raiseFree
      (handle_client_change_from_moving_desktop env k new_ client).calls := by
  unfold handle_client_change_from_moving_desktop
  dsimp only
  split
  · split
    · exact raiseFree_cons rfl raiseFree_nil
    · exact raiseFree_cons rfl (raiseFree_cons rfl (raiseFree_cons rfl
        (raiseFree_cons rfl
          (raiseFree_ite
            (raiseFree_append
              (raiseFree_cons rfl (raiseFree_cons rfl (raiseFree_cons rfl raiseFree_nil)))
              (raiseFree_map_all _))
            raiseFree_nil))))
  · exact raiseFree_nil

/-- The resizing-desktop transition handler issues no raise. -/
theorem raiseFree_from_resizing (env : DispatchEnv) (k : Nat) (new_ : Desktop)
    (client : Window) :
    raiseFree
      (handle_client_change_from_resizing_desktop env k new_ client).calls := by
  unfold handle_client_change_from_resizing_desktop
  dsimp only
  split
  · split
    · exact raiseFree_cons rfl raiseFree_nil
    · exact raiseFree_cons rfl (raiseFree_cons rfl (raiseFree_cons rfl
        (raiseFree_cons rfl
          (raiseFree_ite
            (raiseFree_append
              (raiseFree_cons rfl (raiseFree_cons rfl (raiseFree_cons rfl raiseFree_nil)))
              (raiseFree_map_all _))
            raiseFree_nil))))
  · exact raiseFree_nil

/-- The per-event dispatch issues no raise (raising is deferred to the
relayer). -/
theorem raiseFree_dispatch_one (env : DispatchEnv) (k : Nat) (ch : Change) :
    raiseFree (dispatch_one env k ch).calls := by
  cases ch with
  | layer w l => exact raiseFree_nil
  | focus prev next =>
    show raiseFree (handle_focus_change env _ _).1
    unfold handle_focus_change
    exact raiseFree_append
      (raiseFree_ite (raiseFree_cons rfl raiseFree_nil) raiseFree_nil)
      (raiseFree_ite
        (raiseFree_cons rfl
          (raiseFree_ite (raiseFree_cons rfl raiseFree_nil)
            (raiseFree_cons rfl (raiseFree_cons rfl raiseFree_nil))))
        (raiseFree_cons rfl raiseFree_nil))
  | clientDesktop w prevOpt next =>
    show raiseFree (handle_client_desktop_change env k w prevOpt next).calls
    unfold handle_client_desktop_change
    cases prevOpt with
    | none => exact raiseFree_new_client env k next w
    | some old =>
      cases old with
      | user i => exact raiseFree_from_user env k (.user i) next w
      | all => exact raiseFree_from_all env k next w
      | icon => exact raiseFree_from_icon env k next w
      | moving => exact raiseFree_from_moving env k next w
      | resizing => exact raiseFree_from_resizing env k next w
  | currentDesktop prev next =>
    show raiseFree (handle_current_desktop_change env k prev next).calls
    unfold handle_current_desktop_change
    exact raiseFree_append
      (raiseFree_flatMap _ _ (fun w =>
        raiseFree_cons rfl (raiseFree_cons rfl (raiseFree_unmap_unfocus_all _))))
      (raiseFree_flatMap _ _ (fun w =>
        raiseFree_cons rfl (raiseFree_cons rfl (raiseFree_map_all _))))
  | screen w box =>
    show raiseFree (handle_screen_change env k w box).calls
    unfold handle_screen_change
    split
    · exact raiseFree_nil
    · split
      · exact raiseFree_cons rfl (raiseFree_cons rfl raiseFree_nil)
      · exact raiseFree_nil
  | mode w m =>
    show raiseFree (handle_mode_change env k w m).calls
    unfold handle_mode_change
    split
    · exact raiseFree_nil
    · exact raiseFree_nil
  | location w x y => exact raiseFree_cons rfl raiseFree_nil
  | size w wd ht => exact raiseFree_cons rfl raiseFree_nil
  | destroy w d l =>
    show raiseFree (handle_destroy_change env k w d).calls
    unfold handle_destroy_change
    cases d with
    | icon =>
      dsimp only
      split
      · exact raiseFree_cons rfl (raiseFree_cons rfl raiseFree_nil)
      · exact raiseFree_nil
    | moving =>
      exact raiseFree_cons rfl (raiseFree_cons rfl (raiseFree_cons rfl raiseFree_nil))
    | resizing =>
      exact raiseFree_cons rfl (raiseFree_cons rfl (raiseFree_cons rfl raiseFree_nil))
    | user i => exact raiseFree_nil
    | all => exact raiseFree_nil
  | unmap w => exact raiseFree_unmap_unfocus_all _
  | childAdd p c => exact raiseFree_nil
  | childRemove p c => exact raiseFree_nil

/-- The whole dispatch loop issues no raise. -/
theorem raiseFree_dispatch_all (env : DispatchEnv) (cs : List Change)
    (k : Nat) : raiseFree (dispatch_all env cs k).calls := by
  induction cs generalizing k with
  | nil => exact raiseFree_nil
  | cons c rest ih =>
    exact raiseFree_append (raiseFree_dispatch_one env k c) (ih _)

/-- Icon repositioning issues no raise. -/
theorem raiseFree_reposition_loop (iw ih sw : Int) (l : List Window) :
    ∀ x y : Int, raiseFree (reposition_icons_loop iw ih sw l x y) := by
  induction l with
  | nil =>
    intro x y
    exact raiseFree_nil
  | cons i t iht =>
    intro x y
    exact raiseFree_cons rfl (iht _ _)

/-- With no focused window left, the relayer loop raises every family in
list order. -/
theorem relayer_loop_no_focus (env : DispatchEnv) (fLayer : Nat)
    (l : List Window) (h : ∀ w ∈ l, w ≠ NoWindow) :
    relayer_loop env fLayer l NoWindow = l.flatMap (raise_family env) := by
  induction l with
  | nil => rfl
  | cons c rest ih =>
    have hc : c ≠ NoWindow := h c (List.mem_cons_self c rest)
    unfold relayer_loop
    rw [if_neg (by simp), if_pos (by simpa using hc)]
    rw [ih (fun w hw => h w (List.mem_cons_of_mem c hw))]
    simp [List.flatMap_cons]

/-- With a focused window `f`, the relayer loop over a layer-sorted list
raises the families at `f`'s layer or below (except `f`) in order, then
`f`'s family, then all strictly higher families in order. -/
theorem relayer_loop_focused (env : DispatchEnv) (f : Window)
    (hf : f ≠ NoWindow) (l : List Window)
    (hnz : ∀ w ∈ l, w ≠ NoWindow)
    (hs : l.Pairwise (fun a b => env.find_layer a ≤ env.find_layer b)) :
    relayer_loop env (env.find_layer f) l f =
      (l.filter (fun c =>
          c != f && decide (env.find_layer c ≤ env.find_layer f))).flatMap
        (raise_family env)
        ++ raise_family env f
        ++ (l.filter (fun c =>
          decide (env.find_layer f < env.find_layer c))).flatMap
          (raise_family env) := by
  induction l with
  | nil =>
    unfold relayer_loop
    rw [if_pos (by simpa using hf)]
    simp
  | cons c rest ih =>
    obtain ⟨hc_all, hs'⟩ := List.pairwise_cons.mp hs
    have hcnz : c ≠ NoWindow := hnz c (List.mem_cons_self c rest)
    have hnz' : ∀ w ∈ rest, w ≠ NoWindow :=
      fun w hw => hnz w (List.mem_cons_of_mem c hw)
    by_cases hgt : env.find_layer f < env.find_layer c
    · unfold relayer_loop
      rw [if_pos (by simp [Bool.and_eq_true, hgt]; simpa using hf)]
      rw [if_pos (by simpa using hcnz)]
      rw [relayer_loop_no_focus env _ rest hnz']
      have hall : ∀ x ∈ rest, env.find_layer f < env.find_layer x :=
        fun x hx => lt_of_lt_of_le hgt (hc_all x hx)
      have hfil1 : (c :: rest).filter (fun c' =>
          c' != f && decide (env.find_layer c' ≤ env.find_layer f)) = [] := by
        rw [List.filter_eq_nil_iff]
        intro x hx
        rcases List.mem_cons.mp hx with rfl | hx
        · simp
          intro _
          omega
        · simp
          intro _
          have := hall x hx
          omega
      have hfil2 : (c :: rest).filter (fun c' =>
          decide (env.find_layer f < env.find_layer c')) = c :: rest := by
        rw [List.filter_eq_self]
        intro x hx
        rcases List.mem_cons.mp hx with rfl | hx
        · simpa using hgt
        · simpa using hall x hx
      rw [hfil1, hfil2]
      simp [List.flatMap_cons, List.append_assoc]
    · have hle : env.find_layer c ≤ env.find_layer f := Nat.le_of_not_lt hgt
      unfold relayer_loop
      rw [if_neg (by simp [hgt])]
      by_cases hcf : c = f
      · rw [if_neg (by simp [hcf])]
        rw [ih hnz' hs']
        simp only [List.filter_cons]
        rw [if_neg (by simp [hcf]), if_neg (by simp [hcf])]
      · rw [if_pos (by simpa using hcf)]
        rw [ih hnz' hs']
        simp only [List.filter_cons]
        rw [if_pos (by simp [hcf, hle]), if_neg (by simp [hgt])]
        simp [List.flatMap_cons, List.append_assoc]

/-- The relayer's raise trace equals the specification order: families in
layer order with the focused family spliced on top of its layer, then the
icons, then the placeholder. -/
theorem do_relayer_eq_spec (env : DispatchEnv)
    (hs : env.visible_in_layer_order.Pairwise
      (fun a b => env.find_layer a ≤ env.find_layer b))
    (hnz : ∀ w ∈ env.visible_in_layer_order, w ≠ NoWindow) :
    do_relayer env =
      (relayerSpecOrder env).flatMap
        (fun c => XCall.raise c :: (env.get_children_of c).map XCall.raise)
        ++ env.icons.map XCall.raise
        ++ (if env.moveresize_placeholder != NoWindow then
              [XCall.raise env.moveresize_placeholder]
            else []) := by
  have hfam : (fun c : Window =>
      XCall.raise c :: (env.get_children_of c).map XCall.raise)
        = raise_family env := rfl
  rw [hfam]
  unfold do_relayer relayerSpecOrder
  dsimp only
  by_cases hf : resolve_focused env = NoWindow
  · rw [hf, if_pos rfl, relayer_loop_no_focus env _ _ hnz]
  · rw [if_neg hf, relayer_loop_focused env _ hf _ hnz hs]
    simp [List.flatMap_append, List.append_assoc]

/-- C9: in every batch, the dispatch of the queued events issues no raise
call and the relayer runs at most once, after all of them (then the icon
reflow, which also raises nothing); the relayer's raise sequence is: each
visible family — parent immediately followed by its children — in
ascending layer with the focused family on top of its layer, then all
icons, then the move/resize placeholder last. -/
theorem C9_relayer_once_and_order (env : DispatchEnv) (cs : List Change)
    (hs : env.visible_in_layer_order.Pairwise
      (fun a b => env.find_layer a ≤ env.find_layer b))
    (hnz : ∀ w ∈ env.visible_in_layer_order, w ≠ NoWindow) :
    handle_queued_changes env cs =
      (dispatch_all env cs 0).calls
        ++ (if (dispatch_all env cs 0).relayer then do_relayer env else [])
        ++ (if (dispatch_all env cs 0).reflow then reposition_icons env
            else []) ∧
    raiseFree (dispatch_all env cs 0).calls ∧
    raiseFree (reposition_icons env) ∧
    do_relayer env =
      (relayerSpecOrder env).flatMap
        (fun c => XCall.raise c :: (env.get_children_of c).map XCall.raise)
        ++ env.icons.map XCall.raise
        ++ (if env.moveresize_placeholder != NoWindow then
              [XCall.raise env.moveresize_placeholder]
            else []) :=
  ⟨rfl, raiseFree_dispatch_all env cs 0,
   raiseFree_reposition_loop env.icon_width env.icon_height
     env.root_screen.width env.icons 0 0,
   do_relayer_eq_spec env hs hnz⟩

/-- Witness for C9 on the one-client environment and a single layer
event: the batch ends with exactly one raise of the focused family. -/
theorem C9_relayer_once_and_order_witness :
    handle_queued_changes sampleEnv [Change.layer 1 6] = [XCall.raise 1] ∧
    do_relayer sampleEnv =
      (relayerSpecOrder sampleEnv).flatMap
        (fun c =>
          XCall.raise c :: (sampleEnv.get_children_of c).map XCall.raise)
        ++ sampleEnv.icons.map XCall.raise
        ++ (if sampleEnv.moveresize_placeholder != NoWindow then
              [XCall.raise sampleEnv.moveresize_placeholder]
            else []) := by
  have h := C9_relayer_once_and_order sampleEnv [Change.layer 1 6]
    (by simp [sampleEnv]) (by decide)
  exact ⟨h.1.trans (by decide), h.2.2.2⟩

end SmallWM
